import Mathlib

/-!
# Verification of the Opik guardrails validation core

Shallow embedding of the guardrails orchestration layer of the repository:

* `src/sdks/python/src/opik/guardrails/schemas.py` — response data model,
  `PointGuardValidationResponse.get_validated_content`, the `ValidationType` enum;
* `src/sdks/python/src/opik/guardrails/guards/pgai/pointguard_api_client.py` —
  remote policy client response parsing (`_parse_result_section` et al.);
* `src/sdks/python/src/opik/guardrails/guards/pgai/pointguardai.py` — the
  `PointGuardAi` guard constructor and `get_validation_configs`;
* `src/sdks/python/src/opik/guardrails/guardrail.py` — the `Guardrail`
  orchestrator: client registry construction, `validate`, `_validate_input` /
  `_validate_output` merge loops, `_parse_result`, and the
  `validate_and_get_input` / `validate_and_get_output` conveniences.

Python dictionaries coming over the wire are embedded as structures whose
fields are `Option`-valued exactly where the code reads them with `dict.get`
(so a missing JSON field is `none`); exceptions are embedded as `Except`;
HTTP traffic is abstracted into oracles `RemoteCall → Except HttpError …`
(`response.raise_for_status()` on a non-2xx reply corresponds to the oracle
returning `.error`).  Each orchestrator operation additionally returns the
list of backend calls it issued, so that routing/no-retry properties are
statable.
-/

namespace Opik

/-- The `ValidationType` enum of `schemas.py` (members `PII`, `TOPIC`,
`POINTGUARD`). -/
inductive ValidationType where
  | PII
  | TOPIC
  | POINTGUARD
deriving DecidableEq, Repr

/-- Python enum attribute lookup on `ValidationType`: accessing a member by
name yields the member when it exists and raises `AttributeError` otherwise.
The enum in `schemas.py` has exactly the members `PII`, `TOPIC`,
`POINTGUARD`. -/
def ValidationType.memberNamed : String → Option ValidationType
  | "PII" => some .PII
  | "TOPIC" => some .TOPIC
  | "POINTGUARD" => some .POINTGUARD
  | _ => none

/-- Python truthiness of an optional string: `None` and `""` are falsy. -/
def pyTruthyOptStr : Option String → Bool
  | none => false
  | some s => !(s == "")

/-- One raw violation entry as received from the PointGuard backend.  Only the
five keys read by `_parse_result_section` (`v.get("name")`, `v.get("type")`,
`v.get("action")`, `v.get("categories", [])`, `v.get("matchCount", 0)`) are
modelled; each is `Option`-valued because the backend may omit it. -/
structure RawViolation where
  name : Option String
  type : Option String
  action : Option String
  categories : Option (List String)
  matchCount : Option Nat
deriving DecidableEq, Repr

/-- One normalized violation entry as built by `_parse_result_section`:
exactly the keys `{name, type, action, categories, matchCount}`. -/
structure NormalizedViolation where
  name : Option String
  type : Option String
  action : Option String
  categories : List String
  matchCount : Nat
deriving DecidableEq, Repr

/-- The normalization of one raw violation performed inside the
`for v in dlp_violations + ai_violations` loop of `_parse_result_section`. -/
def normalizeViolation (v : RawViolation) : NormalizedViolation :=
  { name := v.name
    type := v.type
    action := v.action
    categories := v.categories.getD []
    matchCount := v.matchCount.getD 0 }

/-- One entry of the `content` array of a PointGuard response section.  The
parser reads `item.get("modifiedContent")`, `item.get("dlpViolations", [])`
and `item.get("aiViolations", [])`; `role`/`originalContent` are carried for
shape faithfulness but never consulted. -/
structure ContentItem where
  role : Option String
  originalContent : Option String
  modifiedContent : Option String
  dlpViolations : Option (List RawViolation)
  aiViolations : Option (List RawViolation)
deriving DecidableEq, Repr

/-- The `{blocked, modified, content}` section (`"input"` or `"output"`) of a
PointGuard V2 response.  All fields are read with defaults
(`result_section.get("blocked", False)` etc.), hence `Option`-valued here. -/
structure ResultSection where
  blocked : Option Bool
  modified : Option Bool
  content : Option (List ContentItem)
deriving DecidableEq, Repr

/-- A full PointGuard V2 response body: `response_data.get("input", {})` /
`response_data.get("output", {})`. -/
structure PGResponseData where
  input : Option ResultSection
  output : Option ResultSection
deriving DecidableEq, Repr

/-- The empty dict default used by `_parse_input_response` /
`_parse_output_response` when the section is missing. -/
def emptySection : ResultSection :=
  { blocked := none, modified := none, content := none }

/-- `PointGuardValidationDetails` of `schemas.py`. -/
structure PointGuardValidationDetails where
  blocked : Bool
  modified : Bool
  violations : List NormalizedViolation
  modified_content : Option String
deriving DecidableEq, Repr

/-- The dumped `validation_details` payload of a `ValidationResult`: the
PointGuard path stores `PointGuardValidationDetails.model_dump()`, the local
backend returns an opaque dict (modelled as a key/value list). -/
inductive DetailsDump where
  | pg (d : PointGuardValidationDetails)
  | raw (kv : List (String × String))
deriving DecidableEq, Repr

/-- `ValidationResult` of `schemas.py`: one Check Item.  `validation_config`
is an opaque dict, modelled as a key/value list (the PointGuard path stores
`{"policy_name": policy_name}`). -/
structure ValidationResult where
  validation_passed : Bool
  type : ValidationType
  validation_config : List (String × String)
  validation_details : DetailsDump
deriving DecidableEq, Repr

/-- `ValidationResponse` of `schemas.py` (the local-backend response shape).
`guardrail_result` is client-side injected (`"passed"`/`"failed"`). -/
structure ValidationResponse where
  validation_passed : Bool
  validations : List ValidationResult
  guardrail_result : Option String := none
deriving DecidableEq, Repr

/-- `PointGuardValidationResponse` of `schemas.py` (subclass of
`ValidationResponse` adding `details`). -/
structure PointGuardValidationResponse where
  validation_passed : Bool
  validations : List ValidationResult
  details : PointGuardValidationDetails
  guardrail_result : Option String := none
deriving DecidableEq, Repr

/-- `PointGuardValidationResponse.get_validated_content` (`schemas.py`):
returns `self.details.modified_content` when `self.details.modified` is true
and `modified_content` is truthy (not `None`, not `""`), else the original
content. -/
def PointGuardValidationResponse.get_validated_content
    (r : PointGuardValidationResponse) (original_content : String) : String :=
  if r.details.modified && pyTruthyOptStr r.details.modified_content then
    r.details.modified_content.getD original_content
  else original_content

/-- `PointGuardApiClient._parse_result_section`
(`pointguard_api_client.py`): parse one `{blocked, modified, content}`
section into a `PointGuardValidationResponse`.  Only the first content item
is consulted; DLP then AI violations are normalized; `modified_content` is
read only under the `modified` flag; overall pass is `not blocked`. -/
def parseResultSection (s : ResultSection) (policy_name original_text : String) :
    PointGuardValidationResponse :=
  let blocked := s.blocked.getD false
  let modified := s.modified.getD false
  let content_items := s.content.getD []
  let extracted : List NormalizedViolation × Option String :=
    match content_items with
    | [] => ([], none)
    | item :: _ =>
      let dlp_violations := item.dlpViolations.getD []
      let ai_violations := item.aiViolations.getD []
      ((dlp_violations ++ ai_violations).map normalizeViolation,
       if modified then item.modifiedContent else none)
  let validation_details : PointGuardValidationDetails :=
    { blocked := blocked
      modified := modified
      violations := extracted.1
      modified_content := extracted.2 }
  let validation_passed := !blocked
  { validation_passed := validation_passed
    validations := [{ validation_passed := validation_passed
                      type := ValidationType.POINTGUARD
                      validation_config := [("policy_name", policy_name)]
                      validation_details := .pg validation_details }]
    details := validation_details }

/-! ## Guard construction (`pointguardai.py`) -/

/-- Default base URL constant `POINTGUARDAI_DEFAULT_BASE_URL` of
`pointguardai.py`. -/
def POINTGUARDAI_DEFAULT_BASE_URL : String :=
  "https://api.sqa1.appsoc.com/aisec-rdc/api/v1"

/-- Default organization constant `POINTGUARDAI_DEFAULT_ORG` of
`pointguardai.py`. -/
def POINTGUARDAI_DEFAULT_ORG : String := "demodevelop"

/-- The process environment as read by `PointGuardAi.__init__` via
`os.getenv`: `none` models an unset variable, `some ""` a variable set to the
empty string. -/
structure PgEnv where
  POINTGUARDAI_API_KEY : Option String
  POINTGUARDAI_ORG : Option String
  POINTGUARDAI_BASE_URL : Option String
deriving DecidableEq, Repr

/-- The configuration errors raised by `PointGuardAi.__init__` (`ValueError`
in Python; the spec's `InvalidConfiguration`). -/
inductive ConfigError where
  | missingPolicyName
  | missingApiKey
  | missingOrg
deriving DecidableEq, Repr

/-- A constructed `PointGuardAi` guard: the attributes set by a successful
`PointGuardAi.__init__`. -/
structure PointGuardAiGuard where
  policy_name : String
  api_key : String
  org : String
  base_url : String
deriving DecidableEq, Repr

/-- `PointGuardAi.__init__` (`pointguardai.py`): resolves `api_key` via
`api_key or os.getenv("POINTGUARDAI_API_KEY")`, `org` via
`org or os.getenv("POINTGUARDAI_ORG", POINTGUARDAI_DEFAULT_ORG)` (note the
built-in default), `base_url` via
`os.getenv("POINTGUARDAI_BASE_URL", POINTGUARDAI_DEFAULT_BASE_URL)`, and
raises `ValueError` for a falsy `policy_name`, a falsy resolved `api_key`,
or a falsy resolved `org`.  The constructor performs no network call. -/
def pointGuardAiInit (env : PgEnv) (policy_name : String)
    (api_key : Option String) (org : Option String) :
    Except ConfigError PointGuardAiGuard :=
  if policy_name == "" then .error .missingPolicyName
  else
    let resolved_api_key : Option String :=
      if pyTruthyOptStr api_key then api_key else env.POINTGUARDAI_API_KEY
    let resolved_org : String :=
      if pyTruthyOptStr org then org.getD ""
      else env.POINTGUARDAI_ORG.getD POINTGUARDAI_DEFAULT_ORG
    let base_url : String :=
      env.POINTGUARDAI_BASE_URL.getD POINTGUARDAI_DEFAULT_BASE_URL
    if !(pyTruthyOptStr resolved_api_key) then .error .missingApiKey
    else if resolved_org == "" then .error .missingOrg
    else .ok { policy_name := policy_name
               api_key := resolved_api_key.getD ""
               org := resolved_org
               base_url := base_url }

/-! ## Guards and their validation configs -/

/-- The Python exceptions other than validation/HTTP failures that can
surface in the modelled code paths. -/
inductive PyError where
  | attributeError
  | keyError
  | validationError
deriving DecidableEq, Repr

/-- One entry of a `get_validation_configs()` result:
`{"type": <ValidationType member>, "config": {...}}`. -/
structure RawValidationConfig where
  type : ValidationType
  config : List (String × String)
deriving DecidableEq, Repr

/-- Modelled from the spec: the local guards (`guards/topic.py`,
`guards/pii.py`) are not under `src/`; per spec §4.1 a local guard "produces
a list of Check Items descriptors sufficient for a local-backend call", so a
local guard is embedded as the config list its `get_validation_configs`
returns. -/
structure LocalGuardSpec where
  configs : List RawValidationConfig
deriving DecidableEq, Repr

/-- A guard held by the orchestrator: either a local-backend guard or a
`PointGuardAi` policy guard (`isinstance(guard, PointGuardAi)` branches on
this tag). -/
inductive Guard where
  | local (spec : LocalGuardSpec)
  | pointGuardAi (pg : PointGuardAiGuard)
deriving DecidableEq, Repr

/-- `Guard.get_validation_configs`.  For a local guard it returns its config
descriptors.  For a `PointGuardAi` guard, `pointguardai.py` line 97 builds
`{"type": ValidationType.PointGuardAi, ...}`: the attribute lookup
`ValidationType.PointGuardAi` is resolved against the enum's member table
and raises `AttributeError`, since the members are only
`PII`/`TOPIC`/`POINTGUARD`. -/
def Guard.get_validation_configs : Guard → Except PyError (List RawValidationConfig)
  | .local spec => .ok spec.configs
  | .pointGuardAi pg =>
    match ValidationType.memberNamed "PointGuardAi" with
    | some t => .ok [{ type := t, config := [("policy_name", pg.policy_name)] }]
    | none => .error .attributeError

/-! ## Orchestrator state (`Guardrail.__init__`) -/

/-- The state captured by one `PointGuardAiApiClient` instance that the
orchestrator creates (`base_url`, `api_key`, `org`; the shared timeout and
the underlying HTTP socket are abstracted into the call oracle). -/
structure ClientCfg where
  base_url : String
  api_key : String
  org : String
deriving DecidableEq, Repr

/-- Placeholder configuration used only to totalize functions on the
(unreachable) missing-client branch. -/
def junkClientCfg : ClientCfg := { base_url := "", api_key := "", org := "" }

/-- The `self._pointguardai_clients` dict built by `Guardrail.__init__`:
iterate over the guards and, for each `PointGuardAi` guard whose `base_url`
is not yet a key, insert a client constructed from that guard's
`base_url`/`api_key`/`org`.  Embedded as an insertion-ordered association
list (Python dicts preserve insertion order and have unique keys). -/
def buildClients : List Guard → List (String × ClientCfg) → List (String × ClientCfg)
  | [], acc => acc
  | .local _ :: rest, acc => buildClients rest acc
  | .pointGuardAi pg :: rest, acc =>
    if acc.any (fun e => e.1 == pg.base_url) then buildClients rest acc
    else
      buildClients rest
        (acc ++ [(pg.base_url,
                  { base_url := pg.base_url, api_key := pg.api_key, org := pg.org })])

/-- Dict lookup `self._pointguardai_clients[base_url]`. -/
def lookupClient (m : List (String × ClientCfg)) (k : String) : Option ClientCfg :=
  (m.find? (fun e => e.1 == k)).map (·.2)

/-- The orchestrator: `Guardrail` holds the guard list given at
construction. -/
structure Guardrail where
  guards : List Guard
deriving DecidableEq, Repr

/-- `self._pointguardai_guards`: the sublist of guards that are
`PointGuardAi` instances, in registration order. -/
def Guardrail.pointguardai_guards (o : Guardrail) : List PointGuardAiGuard :=
  o.guards.filterMap fun g =>
    match g with
    | .pointGuardAi pg => some pg
    | .local _ => none

/-- `self._pointguardai_clients` as built in `Guardrail.__init__`. -/
def Guardrail.pointguardai_clients (o : Guardrail) : List (String × ClientCfg) :=
  buildClients o.guards []

/-! ## Backend calls, errors, and the raise-on-failure rule -/

/-- Transport error: a non-2xx HTTP response (`httpx.HTTPStatusError` raised
by `response.raise_for_status()`; the spec's `BackendError`). -/
structure HttpError where
  status : Nat
  body : String
deriving DecidableEq, Repr

/-- One HTTP request issued by `PointGuardApiClient`: the determinants of
the request are the client's configuration (URL base, org, API-key header),
the policy name, the inspected text(s), and the optional correlation key. -/
inductive RemoteCall where
  | input (cfg : ClientCfg) (policy_name : String) (text : String)
      (correlation_key : Option String)
  | output (cfg : ClientCfg) (policy_name : String) (input_text output_text : String)
      (correlation_key : Option String)
deriving DecidableEq, Repr

/-- One backend request issued by the orchestrator: either the single local
batch call of `_validate`, or a remote PointGuard call. -/
inductive BackendCall where
  | localBatch (text : String) (validations : List RawValidationConfig)
  | remote (call : RemoteCall)
deriving DecidableEq, Repr

/-- Either response type, as returned by `validate_input`/`validate_output`
(Python's dynamic union `ValidationResponse | PointGuardAiValidationResponse`). -/
inductive AnyResponse where
  | plain (r : ValidationResponse)
  | pg (r : PointGuardValidationResponse)
deriving DecidableEq, Repr

/-- `opik.exceptions.GuardrailValidationFailed`: carries the full outcome
and the failed subset. -/
structure GuardrailValidationFailed where
  validation_results : AnyResponse
  failed_validations : List ValidationResult
deriving DecidableEq, Repr

/-- The errors a validate-family operation can surface. -/
inductive GuardrailError where
  | backendError (e : HttpError)
  | validationFailed (f : GuardrailValidationFailed)
  | pyError (e : PyError)
deriving DecidableEq, Repr

/-- `Guardrail._parse_result` on a plain `ValidationResponse`: raise
`GuardrailValidationFailed` with the failed subset when
`validation_passed` is false, else return the response. -/
def parse_result_plain (r : ValidationResponse) :
    Except GuardrailValidationFailed ValidationResponse :=
  if r.validation_passed then .ok r
  else .error { validation_results := .plain r
                failed_validations := r.validations.filter (fun v => !v.validation_passed) }

/-- `Guardrail._parse_result` on a `PointGuardValidationResponse` (the same
duck-typed method applied to the subclass). -/
def parse_result_pg (r : PointGuardValidationResponse) :
    Except GuardrailValidationFailed PointGuardValidationResponse :=
  if r.validation_passed then .ok r
  else .error { validation_results := .pg r
                failed_validations := r.validations.filter (fun v => !v.validation_passed) }

/-! ## Local-backend path (`Guardrail.validate` / `_validate`) -/

/-- The config-collection loop of `Guardrail._validate`:
`for guard in self.guards: validations.extend(guard.get_validation_configs())`,
with an exception from any guard aborting the loop. -/
def collectConfigs : List Guard → Except PyError (List RawValidationConfig)
  | [] => .ok []
  | g :: rest =>
    match g.get_validation_configs with
    | .error e => .error e
    | .ok cfgs =>
      match collectConfigs rest with
      | .error e => .error e
      | .ok restCfgs => .ok (cfgs ++ restCfgs)

/-- The local validation service (`rest_api_client.GuardrailsApiClient` plus
the HTTP wire, abstracted): given the text and the batched configs it either
fails with a non-2xx status or returns a `ValidationResponse`.  Modelled from
the spec: `rest_api_client.py` is not under `src/`; spec §4.2/§6 give its
contract (`POST /validate` with the batch, response
`{validation_passed, validations}`, non-2xx is a hard `BackendError`). -/
def LocalOracle : Type :=
  String → List RawValidationConfig → Except HttpError ValidationResponse

/-- `Guardrail.validate` composed with `_validate`: collect all guards'
configs, issue one local batch call, stamp `guardrail_result`, and apply
`_parse_result`.  (The telemetry emission of `_validate` is fire-and-forget
to an external sink and is not modelled.)  Also returns the backend calls
issued. -/
def Guardrail.validate (o : Guardrail) (lo : LocalOracle) (text : String) :
    Except GuardrailError ValidationResponse × List BackendCall :=
  match collectConfigs o.guards with
  | .error e => (.error (.pyError e), [])
  | .ok validations =>
    match lo text validations with
    | .error he => (.error (.backendError he), [.localBatch text validations])
    | .ok result =>
      let result :=
        { result with
          guardrail_result := some (if result.validation_passed then "passed" else "failed") }
      ((parse_result_plain result).mapError .validationFailed,
       [.localBatch text validations])

/-! ## Remote policy path (`_validate_input` / `_validate_output`) -/

/-- The remote PointGuard backend, abstracted: each HTTP POST either fails
with a non-2xx status (`raise_for_status`) or returns a parsed JSON body. -/
def RemoteOracle : Type := RemoteCall → Except HttpError PGResponseData

/-- The per-guard loop shared by `Guardrail._validate_input` and
`Guardrail._validate_output`: for each `PointGuardAi` guard, fetch its client
from the dict, issue the call, parse the relevant section, and accumulate
`(all_validations, all_passed, last_details)`.  The two Python methods differ
only in the request built (`mkCall`) and the response section consulted
(`getSection`), which are passed in; an HTTP error aborts the loop
(exception propagation).  The list of issued calls is returned alongside. -/
def runPG (clients : List (String × ClientCfg)) (oracle : RemoteOracle)
    (mkCall : ClientCfg → PointGuardAiGuard → RemoteCall)
    (getSection : PGResponseData → Option ResultSection)
    (original_text : String) :
    List PointGuardAiGuard →
    List ValidationResult × Bool × Option PointGuardValidationDetails →
    Except GuardrailError
      (List ValidationResult × Bool × Option PointGuardValidationDetails) ×
    List BackendCall
  | [], acc => (.ok acc, [])
  | pg :: rest, acc =>
    match lookupClient clients pg.base_url with
    | none => (.error (.pyError .keyError), [])
    | some cfg =>
      let call := mkCall cfg pg
      match oracle call with
      | .error he => (.error (.backendError he), [.remote call])
      | .ok rd =>
        let resp := parseResultSection ((getSection rd).getD emptySection)
          pg.policy_name original_text
        let next := runPG clients oracle mkCall getSection original_text rest
          (acc.1 ++ resp.validations, acc.2.1 && resp.validation_passed, some resp.details)
        (next.1, .remote call :: next.2)

/-- Assembling the combined response at the end of `_validate_input` /
`_validate_output`: build the merged `PointGuardAiValidationResponse` from
the accumulator, stamp `guardrail_result`, and apply `_parse_result`.
A `none` last-details (possible only for an empty guard list, which the
caller excludes) is a pydantic `ValidationError`. -/
def finishPG
    (r : Except GuardrailError
           (List ValidationResult × Bool × Option PointGuardValidationDetails) ×
         List BackendCall) :
    Except GuardrailError AnyResponse × List BackendCall :=
  match r with
  | (.error e, tr) => (.error e, tr)
  | (.ok (_, _, none), tr) => (.error (.pyError .validationError), tr)
  | (.ok (vals, passed, some d), tr) =>
    let combined : PointGuardValidationResponse :=
      { validation_passed := passed
        validations := vals
        details := d
        guardrail_result := some (if passed then "passed" else "failed") }
    (((parse_result_pg combined).map AnyResponse.pg).mapError .validationFailed, tr)

/-- The request built by the loop body of `_validate_input` via
`client.validate_input(generation, pg_guard.policy_name, correlation_key)`. -/
def mkInputCall (text : String) (ck : Option String)
    (cfg : ClientCfg) (pg : PointGuardAiGuard) : RemoteCall :=
  .input cfg pg.policy_name text ck

/-- The request built by the loop body of `_validate_output` via
`client.validate_output(input_text, generation, pg_guard.policy_name,
correlation_key)`. -/
def mkOutputCall (input_text output_text : String) (ck : Option String)
    (cfg : ClientCfg) (pg : PointGuardAiGuard) : RemoteCall :=
  .output cfg pg.policy_name input_text output_text ck

/-- `Guardrail.validate_input`: when at least one `PointGuardAi` guard is
registered, run the remote merge loop over the input-inspection endpoint and
apply `_parse_result`; otherwise fall back to `self.validate(text)`. -/
def Guardrail.validate_input (o : Guardrail) (lo : LocalOracle)
    (oracle : RemoteOracle) (text : String) (correlation_key : Option String) :
    Except GuardrailError AnyResponse × List BackendCall :=
  if o.pointguardai_guards.isEmpty then
    let vr := o.validate lo text
    (vr.1.map AnyResponse.plain, vr.2)
  else
    finishPG (runPG o.pointguardai_clients oracle (mkInputCall text correlation_key)
      (·.input) text o.pointguardai_guards ([], true, none))

/-- `Guardrail.validate_output`: symmetric to `validate_input`, routed to the
output-inspection endpoint (the parsed section is the response's `"output"`
section and the "original text" handed to the parser is the output text);
falls back to `self.validate(output_text)` without remote guards. -/
def Guardrail.validate_output (o : Guardrail) (lo : LocalOracle)
    (oracle : RemoteOracle) (input_text output_text : String)
    (correlation_key : Option String) :
    Except GuardrailError AnyResponse × List BackendCall :=
  if o.pointguardai_guards.isEmpty then
    let vr := o.validate lo output_text
    (vr.1.map AnyResponse.plain, vr.2)
  else
    finishPG (runPG o.pointguardai_clients oracle
      (mkOutputCall input_text output_text correlation_key)
      (·.output) output_text o.pointguardai_guards ([], true, none))

/-- `result.get_validated_content(...)` as invoked on the dynamic result of
`validate_input`/`validate_output`: defined on the PointGuard response
subclass; a plain `ValidationResponse` has no such method
(`AttributeError`). -/
def AnyResponse.get_validated_content :
    AnyResponse → String → Except PyError String
  | .pg r, original => .ok (r.get_validated_content original)
  | .plain _, _ => .error .attributeError

/-- `Guardrail.validate_and_get_input`: validate the input, then return the
outcome's content-to-use. -/
def Guardrail.validate_and_get_input (o : Guardrail) (lo : LocalOracle)
    (oracle : RemoteOracle) (text : String) (correlation_key : Option String) :
    Except GuardrailError String × List BackendCall :=
  let vr := o.validate_input lo oracle text correlation_key
  match vr.1 with
  | .error e => (.error e, vr.2)
  | .ok resp => ((resp.get_validated_content text).mapError .pyError, vr.2)

/-- `Guardrail.validate_and_get_output`: validate the output, then return the
outcome's content-to-use applied to the output text. -/
def Guardrail.validate_and_get_output (o : Guardrail) (lo : LocalOracle)
    (oracle : RemoteOracle) (input_text output_text : String)
    (correlation_key : Option String) :
    Except GuardrailError String × List BackendCall :=
  let vr := o.validate_output lo oracle input_text output_text correlation_key
  match vr.1 with
  | .error e => (.error e, vr.2)
  | .ok resp => ((resp.get_validated_content output_text).mapError .pyError, vr.2)

/-! ## Derived characterizations used by the theorems -/

/-- The call the merge loop issues for one guard (the client fetched from the
dict; the junk default is unreachable once the client-registry invariant is
established). -/
def guardCall (clients : List (String × ClientCfg))
    (mkCall : ClientCfg → PointGuardAiGuard → RemoteCall)
    (pg : PointGuardAiGuard) : RemoteCall :=
  mkCall ((lookupClient clients pg.base_url).getD junkClientCfg) pg

/-- The per-guard response the merge loop obtains for one guard, as a pure
function of the oracle (junk defaults unreachable under the hypotheses of the
lemmas that use it). -/
def guardResponse (clients : List (String × ClientCfg)) (oracle : RemoteOracle)
    (mkCall : ClientCfg → PointGuardAiGuard → RemoteCall)
    (getSection : PGResponseData → Option ResultSection)
    (original_text : String) (pg : PointGuardAiGuard) :
    PointGuardValidationResponse :=
  match oracle (guardCall clients mkCall pg) with
  | .error _ => parseResultSection emptySection pg.policy_name original_text
  | .ok rd =>
    parseResultSection ((getSection rd).getD emptySection) pg.policy_name original_text

/-- AND of the individual responses' overall-passed flags, in order. -/
def allPassedOf : List PointGuardValidationResponse → Bool
  | [] => true
  | r :: rest => r.validation_passed && allPassedOf rest

/-- Concatenation of the individual responses' Check Item lists, in order. -/
def concatMapValidations : List PointGuardValidationResponse → List ValidationResult
  | [] => []
  | r :: rest => r.validations ++ concatMapValidations rest

/-- The merged response `_validate_input`/`_validate_output` build for a
guard list whose per-guard responses are `rs`, with `d` the retained last
detail payload. -/
def combineResponses (rs : List PointGuardValidationResponse)
    (d : PointGuardValidationDetails) : PointGuardValidationResponse :=
  { validation_passed := allPassedOf rs
    validations := concatMapValidations rs
    details := d
    guardrail_result := some (if allPassedOf rs then "passed" else "failed") }

/-- The per-guard response of the input path, as the orchestrator obtains
it. -/
def inputGuardResponse (o : Guardrail) (oracle : RemoteOracle) (text : String)
    (ck : Option String) : PointGuardAiGuard → PointGuardValidationResponse :=
  guardResponse o.pointguardai_clients oracle (mkInputCall text ck) (·.input) text

/-- The per-guard response of the output path. -/
def outputGuardResponse (o : Guardrail) (oracle : RemoteOracle)
    (input_text output_text : String) (ck : Option String) :
    PointGuardAiGuard → PointGuardValidationResponse :=
  guardResponse o.pointguardai_clients oracle
    (mkOutputCall input_text output_text ck) (·.output) output_text

/-- The backend call the input path issues for one guard. -/
def inputGuardCall (o : Guardrail) (text : String) (ck : Option String)
    (pg : PointGuardAiGuard) : BackendCall :=
  .remote (guardCall o.pointguardai_clients (mkInputCall text ck) pg)

/-- The backend call the output path issues for one guard. -/
def outputGuardCall (o : Guardrail) (input_text output_text : String)
    (ck : Option String) (pg : PointGuardAiGuard) : BackendCall :=
  .remote (guardCall o.pointguardai_clients (mkOutputCall input_text output_text ck) pg)

/-- The Validation Outcome invariant of spec §3: overall-passed is false iff
at least one Check Item failed, and a `blocked` detail implies overall-passed
is false. -/
def OutcomeInvariant (r : PointGuardValidationResponse) : Prop :=
  (r.validation_passed = false ↔ ∃ v ∈ r.validations, v.validation_passed = false) ∧
  (r.details.blocked = true → r.validation_passed = false)

/-- Shape of every response produced by `_parse_result_section`: one Check
Item whose pass flag equals the response's, and detail-blocked forcing
failure. -/
def RespWF (r : PointGuardValidationResponse) : Prop :=
  (∃ v, r.validations = [v] ∧ v.validation_passed = r.validation_passed) ∧
  (r.details.blocked = true → r.validation_passed = false)

/-! ## Concrete fixtures used to evaluate the development -/

/-- A concrete `PointGuardAi` guard. -/
def wGuard : PointGuardAiGuard :=
  { policy_name := "policy-a", api_key := "key-a", org := "org-a",
    base_url := "https://pg.example" }

/-- A second concrete `PointGuardAi` guard on a distinct endpoint. -/
def wGuard2 : PointGuardAiGuard :=
  { policy_name := "policy-b", api_key := "key-b", org := "org-b",
    base_url := "https://pg2.example" }

/-- An orchestrator holding one remote policy guard. -/
def wOrch : Guardrail := { guards := [.pointGuardAi wGuard] }

/-- An orchestrator holding two remote policy guards. -/
def wOrch2 : Guardrail := { guards := [.pointGuardAi wGuard, .pointGuardAi wGuard2] }

/-- An orchestrator holding one local guard and no remote guard. -/
def wLocalOrch : Guardrail :=
  { guards := [.local { configs := [{ type := .TOPIC, config := [("topic", "finance")] }] }] }

/-- A content item with no violations and no modification. -/
def wPlainItem : ContentItem :=
  { role := some "user", originalContent := some "hi", modifiedContent := none,
    dlpViolations := some [], aiViolations := some [] }

/-- A backend section with `blocked=true`. -/
def wBlockedSection : ResultSection :=
  { blocked := some true, modified := some false, content := some [wPlainItem] }

/-- A backend section that passes. -/
def wPassSection : ResultSection :=
  { blocked := some false, modified := some false, content := some [wPlainItem] }

/-- A backend section with `modified=true, modifiedContent="X", blocked=false`. -/
def wModifiedSection : ResultSection :=
  { blocked := some false, modified := some true,
    content := some [{ role := some "user", originalContent := some "My SSN is 123-45-6789",
                       modifiedContent := some "X",
                       dlpViolations := some [], aiViolations := some [] }] }

/-- The SSN violation example of spec §8. -/
def wSSNItem : ContentItem :=
  { role := some "user", originalContent := some "My SSN is 123-45-6789",
    modifiedContent := none,
    dlpViolations := some [{ name := some "SSN", type := some "PII",
                             action := some "redact", categories := none,
                             matchCount := some 1 }],
    aiViolations := some [] }

/-- A passing section carrying the SSN violation example. -/
def wSSNSection : ResultSection :=
  { blocked := some false, modified := some false, content := some [wSSNItem] }

/-- An oracle whose every reply is `blocked=true`. -/
def wBlockedOracle : RemoteOracle := fun _ =>
  .ok { input := some wBlockedSection, output := some wBlockedSection }

/-- An oracle whose every reply passes. -/
def wPassOracle : RemoteOracle := fun _ =>
  .ok { input := some wPassSection, output := some wPassSection }

/-- An oracle whose every reply is `modified=true, modifiedContent="X"`. -/
def wModifiedOracle : RemoteOracle := fun _ =>
  .ok { input := some wModifiedSection, output := some wModifiedSection }

/-- The policy name carried by a remote call. -/
def RemoteCall.policyName : RemoteCall → String
  | .input _ p _ _ => p
  | .output _ p _ _ _ => p

/-- An oracle that passes requests for `"policy-a"` and blocks all others. -/
def wMixedOracle : RemoteOracle := fun c =>
  .ok (if c.policyName == "policy-a" then
        { input := some wPassSection, output := some wPassSection }
      else
        { input := some wBlockedSection, output := some wBlockedSection })

/-- An oracle that always fails with HTTP 500. -/
def wErrOracle : RemoteOracle := fun _ => .error { status := 500, body := "err" }

/-- A local backend that reports one passing check. -/
def wLocalOracle : LocalOracle := fun _ _ =>
  .ok { validation_passed := true, validations := [] }

/-- A local backend that always fails with HTTP 500. -/
def wLocalErrOracle : LocalOracle := fun _ _ => .error { status := 500, body := "boom" }

/-! ## Client registry lemmas -/

theorem buildClients_entry_base_url :
    ∀ (l : List Guard) (acc : List (String × ClientCfg)),
      (∀ e ∈ acc, e.2.base_url = e.1) →
      ∀ e ∈ buildClients l acc, e.2.base_url = e.1 := by
  intro l
  induction l with
  | nil => intro acc h e he; exact h e he
  | cons g rest ih =>
    intro acc h e he
    cases g with
    | «local» spec => exact ih acc h e he
    | pointGuardAi pg =>
      simp only [buildClients] at he
      by_cases hmem : acc.any (fun e => e.1 == pg.base_url)
      · rw [if_pos hmem] at he
        exact ih acc h e he
      · rw [if_neg hmem] at he
        refine ih _ ?_ e he
        intro e' he'
        rcases List.mem_append.mp he' with h1 | h2
        · exact h e' h1
        · rcases List.mem_singleton.mp h2 with rfl
          rfl

theorem buildClients_key_mono :
    ∀ (l : List Guard) (acc : List (String × ClientCfg)) (k : String),
      (∃ e ∈ acc, e.1 = k) → ∃ e ∈ buildClients l acc, e.1 = k := by
  intro l
  induction l with
  | nil => intro acc k h; exact h
  | cons g rest ih =>
    intro acc k h
    cases g with
    | «local» spec => exact ih acc k h
    | pointGuardAi pg =>
      simp only [buildClients]
      by_cases hmem : acc.any (fun e => e.1 == pg.base_url)
      · rw [if_pos hmem]; exact ih acc k h
      · rw [if_neg hmem]
        refine ih _ k ?_
        rcases h with ⟨e, he, hk⟩
        exact ⟨e, List.mem_append_left _ he, hk⟩

theorem buildClients_key_of_guard :
    ∀ (l : List Guard) (acc : List (String × ClientCfg)) (pg : PointGuardAiGuard),
      Guard.pointGuardAi pg ∈ l →
      ∃ e ∈ buildClients l acc, e.1 = pg.base_url := by
  intro l
  induction l with
  | nil => intro acc pg h; exact absurd h (List.not_mem_nil _)
  | cons g rest ih =>
    intro acc pg h
    rcases List.mem_cons.mp h with hhead | htail
    · subst hhead
      simp only [buildClients]
      by_cases hmem : acc.any (fun e => e.1 == pg.base_url)
      · rw [if_pos hmem]
        rcases List.any_eq_true.mp hmem with ⟨e, he, hk⟩
        exact buildClients_key_mono rest acc pg.base_url ⟨e, he, eq_of_beq hk⟩
      · rw [if_neg hmem]
        refine buildClients_key_mono rest _ pg.base_url ?_
        exact ⟨(pg.base_url, _), List.mem_append_right _ (List.mem_singleton.mpr rfl), rfl⟩
    · cases g with
      | «local» spec => exact ih acc pg htail
      | pointGuardAi pg' =>
        simp only [buildClients]
        by_cases hmem : acc.any (fun e => e.1 == pg'.base_url)
        · rw [if_pos hmem]; exact ih acc pg htail
        · rw [if_neg hmem]; exact ih _ pg htail

theorem lookupClient_isSome_of_key {m : List (String × ClientCfg)} {k : String}
    (h : ∃ e ∈ m, e.1 = k) : ∃ cfg, lookupClient m k = some cfg := by
  rcases h with ⟨e, he, hk⟩
  have : (m.find? (fun e => e.1 == k)).isSome := by
    rw [List.find?_isSome]
    exact ⟨e, he, by simp [hk]⟩
  rcases Option.isSome_iff_exists.mp this with ⟨e', he'⟩
  exact ⟨e'.2, by simp [lookupClient, he']⟩

theorem lookupClient_base_url {m : List (String × ClientCfg)} {k : String}
    {cfg : ClientCfg} (hinv : ∀ e ∈ m, e.2.base_url = e.1)
    (h : lookupClient m k = some cfg) : cfg.base_url = k := by
  simp only [lookupClient, Option.map_eq_some'] at h
  rcases h with ⟨e, he, hcfg⟩
  have hmem := List.mem_of_find?_eq_some he
  have hkey := List.find?_some he
  simp only [beq_iff_eq] at hkey
  rw [← hcfg, hinv e hmem, hkey]

/-- The client-registry invariant of `Guardrail.__init__`: every registered
`PointGuardAi` guard has a client in the dict, and that client's `base_url`
is the guard's. -/
theorem clients_lookup (o : Guardrail) (pg : PointGuardAiGuard)
    (h : pg ∈ o.pointguardai_guards) :
    ∃ cfg, lookupClient o.pointguardai_clients pg.base_url = some cfg ∧
      cfg.base_url = pg.base_url := by
  have hg : Guard.pointGuardAi pg ∈ o.guards := by
    simp only [Guardrail.pointguardai_guards, List.mem_filterMap] at h
    rcases h with ⟨g, hg, hmatch⟩
    cases g with
    | «local» spec => simp at hmatch
    | pointGuardAi pg' =>
      simp only [Option.some.injEq] at hmatch
      rwa [← hmatch]
  have hkey := buildClients_key_of_guard o.guards [] pg hg
  rcases lookupClient_isSome_of_key hkey with ⟨cfg, hcfg⟩
  refine ⟨cfg, hcfg, ?_⟩
  exact lookupClient_base_url
    (buildClients_entry_base_url o.guards [] (by intro e he; simp at he)) hcfg

/-! ## Merge-loop characterization -/

theorem foldl_validations_eq (rs : List PointGuardValidationResponse) :
    ∀ a, rs.foldl (fun x r => x ++ r.validations) a = a ++ concatMapValidations rs := by
  induction rs with
  | nil => intro a; simp [concatMapValidations]
  | cons r rest ih =>
    intro a
    simp only [List.foldl_cons, concatMapValidations, ih, List.append_assoc]

theorem foldl_passed_eq (rs : List PointGuardValidationResponse) :
    ∀ a, rs.foldl (fun x r => x && r.validation_passed) a = (a && allPassedOf rs) := by
  induction rs with
  | nil => intro a; simp [allPassedOf]
  | cons r rest ih =>
    intro a
    simp only [List.foldl_cons, allPassedOf, ih, Bool.and_assoc]

theorem foldl_details_last (front : List PointGuardValidationResponse)
    (lastR : PointGuardValidationResponse) (a : Option PointGuardValidationDetails) :
    (front ++ [lastR]).foldl (fun _ r => some r.details) a = some lastR.details := by
  simp [List.foldl_append]

/-- On a run where every guard's client is registered and every remote call
succeeds, the merge loop returns the fold of the per-guard responses and the
trace of all per-guard calls, in order. -/
theorem runPG_ok (clients : List (String × ClientCfg)) (oracle : RemoteOracle)
    (mkCall : ClientCfg → PointGuardAiGuard → RemoteCall)
    (getSection : PGResponseData → Option ResultSection) (otext : String) :
    ∀ (l : List PointGuardAiGuard)
      (acc : List ValidationResult × Bool × Option PointGuardValidationDetails),
      (∀ pg ∈ l, ∃ cfg, lookupClient clients pg.base_url = some cfg) →
      (∀ pg ∈ l, ∃ rd, oracle (guardCall clients mkCall pg) = .ok rd) →
      runPG clients oracle mkCall getSection otext l acc =
        (.ok ((l.map (guardResponse clients oracle mkCall getSection otext)).foldl
                (fun x r => x ++ r.validations) acc.1,
              (l.map (guardResponse clients oracle mkCall getSection otext)).foldl
                (fun x r => x && r.validation_passed) acc.2.1,
              (l.map (guardResponse clients oracle mkCall getSection otext)).foldl
                (fun _ r => some r.details) acc.2.2),
         l.map (fun pg => .remote (guardCall clients mkCall pg))) := by
  intro l
  induction l with
  | nil => intro acc _ _; rfl
  | cons pg rest ih =>
    intro acc hlk hok
    rcases hlk pg (List.mem_cons_self pg rest) with ⟨cfg, hcfg⟩
    rcases hok pg (List.mem_cons_self pg rest) with ⟨rd, hrd⟩
    have hcall : guardCall clients mkCall pg = mkCall cfg pg := by
      simp [guardCall, hcfg]
    rw [hcall] at hrd
    have hresp : guardResponse clients oracle mkCall getSection otext pg =
        parseResultSection ((getSection rd).getD emptySection) pg.policy_name otext := by
      simp [guardResponse, hcall, hrd]
    simp only [runPG, hcfg, hrd]
    rw [ih _ (fun p hp => hlk p (List.mem_cons_of_mem pg hp))
          (fun p hp => hok p (List.mem_cons_of_mem pg hp))]
    simp only [List.map_cons, List.foldl_cons, hresp, hcall]

/-- On a run where the clients are registered, the guards before `fpg`
succeed, and the call for `fpg` fails with an HTTP error, the merge loop
aborts with `backendError` after issuing exactly the calls up to and
including the failing one. -/
theorem runPG_error (clients : List (String × ClientCfg)) (oracle : RemoteOracle)
    (mkCall : ClientCfg → PointGuardAiGuard → RemoteCall)
    (getSection : PGResponseData → Option ResultSection) (otext : String)
    (fpg : PointGuardAiGuard) (he : HttpError) :
    ∀ (pre post : List PointGuardAiGuard)
      (acc : List ValidationResult × Bool × Option PointGuardValidationDetails),
      (∀ pg ∈ pre, ∃ cfg, lookupClient clients pg.base_url = some cfg) →
      (∀ pg ∈ pre, ∃ rd, oracle (guardCall clients mkCall pg) = .ok rd) →
      (∃ cfg, lookupClient clients fpg.base_url = some cfg) →
      oracle (guardCall clients mkCall fpg) = .error he →
      runPG clients oracle mkCall getSection otext (pre ++ fpg :: post) acc =
        (.error (.backendError he),
         pre.map (fun pg => .remote (guardCall clients mkCall pg)) ++
           [.remote (guardCall clients mkCall fpg)]) := by
  intro pre
  induction pre with
  | nil =>
    intro post acc _ _ hfl hferr
    rcases hfl with ⟨cfg, hcfg⟩
    have hcall : guardCall clients mkCall fpg = mkCall cfg fpg := by
      simp [guardCall, hcfg]
    rw [hcall] at hferr
    simp [runPG, hcfg, hferr, hcall]
  | cons pg rest ih =>
    intro post acc hlk hok hfl hferr
    rcases hlk pg (List.mem_cons_self pg rest) with ⟨cfg, hcfg⟩
    rcases hok pg (List.mem_cons_self pg rest) with ⟨rd, hrd⟩
    have hcall : guardCall clients mkCall pg = mkCall cfg pg := by
      simp [guardCall, hcfg]
    rw [hcall] at hrd
    simp only [List.cons_append, runPG, hcfg, hrd, List.append_eq]
    rw [ih post _ (fun p hp => hlk p (List.mem_cons_of_mem pg hp))
          (fun p hp => hok p (List.mem_cons_of_mem pg hp)) hfl hferr]
    simp [hcall]

/-! ## Path lemmas for `validate_input` / `validate_output` -/

theorem pointguardai_guards_not_isEmpty {o : Guardrail}
    {front : List PointGuardAiGuard} {lastPg : PointGuardAiGuard}
    (hdecomp : o.pointguardai_guards = front ++ [lastPg]) :
    ¬(o.pointguardai_guards.isEmpty = true) := by
  rw [hdecomp]
  simp

/-- When every remote call of the input path succeeds, `validate_input` on a
non-empty remote guard list equals `_parse_result` applied to the merged
response (AND of passes, concatenated items, last guard's details), and
issues exactly the per-guard input calls. -/
theorem validate_input_remote_eq (o : Guardrail) (lo : LocalOracle)
    (oracle : RemoteOracle) (text : String) (ck : Option String)
    (front : List PointGuardAiGuard) (lastPg : PointGuardAiGuard)
    (hdecomp : o.pointguardai_guards = front ++ [lastPg])
    (hok : ∀ pg ∈ o.pointguardai_guards,
      ∃ rd, oracle (guardCall o.pointguardai_clients (mkInputCall text ck) pg) = .ok rd) :
    o.validate_input lo oracle text ck =
      (((parse_result_pg
            (combineResponses (o.pointguardai_guards.map (inputGuardResponse o oracle text ck))
              (inputGuardResponse o oracle text ck lastPg).details)).map
          AnyResponse.pg).mapError GuardrailError.validationFailed,
       o.pointguardai_guards.map (inputGuardCall o text ck)) := by
  have hlk : ∀ pg ∈ o.pointguardai_guards,
      ∃ cfg, lookupClient o.pointguardai_clients pg.base_url = some cfg := by
    intro pg hpg
    rcases clients_lookup o pg hpg with ⟨cfg, hcfg, _⟩
    exact ⟨cfg, hcfg⟩
  unfold Guardrail.validate_input
  rw [if_neg (pointguardai_guards_not_isEmpty hdecomp)]
  rw [runPG_ok o.pointguardai_clients oracle (mkInputCall text ck) (·.input) text
        o.pointguardai_guards ([], true, none) hlk hok]
  rw [foldl_validations_eq, foldl_passed_eq]
  have hlast : (o.pointguardai_guards.map
      (guardResponse o.pointguardai_clients oracle (mkInputCall text ck) (·.input) text)).foldl
      (fun _ r => some r.details) none =
      some (inputGuardResponse o oracle text ck lastPg).details := by
    rw [hdecomp, List.map_append, List.map_singleton]
    exact foldl_details_last _ _ _
  rw [hlast]
  simp only [finishPG, combineResponses, inputGuardResponse, inputGuardCall,
    List.nil_append, Bool.true_and]
  rfl

/-- Symmetric statement for the output path. -/
theorem validate_output_remote_eq (o : Guardrail) (lo : LocalOracle)
    (oracle : RemoteOracle) (input_text output_text : String) (ck : Option String)
    (front : List PointGuardAiGuard) (lastPg : PointGuardAiGuard)
    (hdecomp : o.pointguardai_guards = front ++ [lastPg])
    (hok : ∀ pg ∈ o.pointguardai_guards,
      ∃ rd, oracle (guardCall o.pointguardai_clients
        (mkOutputCall input_text output_text ck) pg) = .ok rd) :
    o.validate_output lo oracle input_text output_text ck =
      (((parse_result_pg
            (combineResponses
              (o.pointguardai_guards.map (outputGuardResponse o oracle input_text output_text ck))
              (outputGuardResponse o oracle input_text output_text ck lastPg).details)).map
          AnyResponse.pg).mapError GuardrailError.validationFailed,
       o.pointguardai_guards.map (outputGuardCall o input_text output_text ck)) := by
  have hlk : ∀ pg ∈ o.pointguardai_guards,
      ∃ cfg, lookupClient o.pointguardai_clients pg.base_url = some cfg := by
    intro pg hpg
    rcases clients_lookup o pg hpg with ⟨cfg, hcfg, _⟩
    exact ⟨cfg, hcfg⟩
  unfold Guardrail.validate_output
  rw [if_neg (pointguardai_guards_not_isEmpty hdecomp)]
  rw [runPG_ok o.pointguardai_clients oracle (mkOutputCall input_text output_text ck)
        (·.output) output_text o.pointguardai_guards ([], true, none) hlk hok]
  rw [foldl_validations_eq, foldl_passed_eq]
  have hlast : (o.pointguardai_guards.map
      (guardResponse o.pointguardai_clients oracle (mkOutputCall input_text output_text ck)
        (·.output) output_text)).foldl
      (fun _ r => some r.details) none =
      some (outputGuardResponse o oracle input_text output_text ck lastPg).details := by
    rw [hdecomp, List.map_append, List.map_singleton]
    exact foldl_details_last _ _ _
  rw [hlast]
  simp only [finishPG, combineResponses, outputGuardResponse, outputGuardCall,
    List.nil_append, Bool.true_and]
  rfl

/-- When an input-path remote call fails with an HTTP error (all earlier
guards having succeeded), `validate_input` surfaces `backendError`
immediately, with exactly the calls up to the failing one issued. -/
theorem validate_input_remote_error (o : Guardrail) (lo : LocalOracle)
    (oracle : RemoteOracle) (text : String) (ck : Option String)
    (pre post : List PointGuardAiGuard) (fpg : PointGuardAiGuard) (he : HttpError)
    (hdecomp : o.pointguardai_guards = pre ++ fpg :: post)
    (hpre : ∀ pg ∈ pre,
      ∃ rd, oracle (guardCall o.pointguardai_clients (mkInputCall text ck) pg) = .ok rd)
    (hf : oracle (guardCall o.pointguardai_clients (mkInputCall text ck) fpg) = .error he) :
    o.validate_input lo oracle text ck =
      (.error (.backendError he),
       pre.map (inputGuardCall o text ck) ++ [inputGuardCall o text ck fpg]) := by
  have hmem : ∀ pg ∈ pre ++ fpg :: post, pg ∈ o.pointguardai_guards := by
    intro pg hpg; rw [hdecomp]; exact hpg
  have hlk : ∀ pg ∈ pre,
      ∃ cfg, lookupClient o.pointguardai_clients pg.base_url = some cfg := by
    intro pg hpg
    rcases clients_lookup o pg (hmem pg (List.mem_append_left _ hpg)) with ⟨cfg, hcfg, _⟩
    exact ⟨cfg, hcfg⟩
  have hflk : ∃ cfg, lookupClient o.pointguardai_clients fpg.base_url = some cfg := by
    rcases clients_lookup o fpg
        (hmem fpg (List.mem_append_right _ (List.mem_cons_self _ _))) with ⟨cfg, hcfg, _⟩
    exact ⟨cfg, hcfg⟩
  have hne : ¬(o.pointguardai_guards.isEmpty = true) := by
    rw [hdecomp]; cases pre <;> simp
  unfold Guardrail.validate_input
  rw [if_neg hne, hdecomp]
  rw [runPG_error o.pointguardai_clients oracle (mkInputCall text ck) (·.input) text
        fpg he pre post ([], true, none) hlk hpre hflk hf]
  simp [finishPG, inputGuardCall]

/-- Symmetric statement for the output path. -/
theorem validate_output_remote_error (o : Guardrail) (lo : LocalOracle)
    (oracle : RemoteOracle) (input_text output_text : String) (ck : Option String)
    (pre post : List PointGuardAiGuard) (fpg : PointGuardAiGuard) (he : HttpError)
    (hdecomp : o.pointguardai_guards = pre ++ fpg :: post)
    (hpre : ∀ pg ∈ pre,
      ∃ rd, oracle (guardCall o.pointguardai_clients
        (mkOutputCall input_text output_text ck) pg) = .ok rd)
    (hf : oracle (guardCall o.pointguardai_clients
      (mkOutputCall input_text output_text ck) fpg) = .error he) :
    o.validate_output lo oracle input_text output_text ck =
      (.error (.backendError he),
       pre.map (outputGuardCall o input_text output_text ck) ++
         [outputGuardCall o input_text output_text ck fpg]) := by
  have hmem : ∀ pg ∈ pre ++ fpg :: post, pg ∈ o.pointguardai_guards := by
    intro pg hpg; rw [hdecomp]; exact hpg
  have hlk : ∀ pg ∈ pre,
      ∃ cfg, lookupClient o.pointguardai_clients pg.base_url = some cfg := by
    intro pg hpg
    rcases clients_lookup o pg (hmem pg (List.mem_append_left _ hpg)) with ⟨cfg, hcfg, _⟩
    exact ⟨cfg, hcfg⟩
  have hflk : ∃ cfg, lookupClient o.pointguardai_clients fpg.base_url = some cfg := by
    rcases clients_lookup o fpg
        (hmem fpg (List.mem_append_right _ (List.mem_cons_self _ _))) with ⟨cfg, hcfg, _⟩
    exact ⟨cfg, hcfg⟩
  have hne : ¬(o.pointguardai_guards.isEmpty = true) := by
    rw [hdecomp]; cases pre <;> simp
  unfold Guardrail.validate_output
  rw [if_neg hne, hdecomp]
  rw [runPG_error o.pointguardai_clients oracle (mkOutputCall input_text output_text ck)
        (·.output) output_text fpg he pre post ([], true, none) hlk hpre hflk hf]
  simp [finishPG, outputGuardCall]

/-! ## Outcome invariants -/

theorem parseResultSection_wf (s : ResultSection) (p t : String) :
    RespWF (parseResultSection s p t) := by
  refine ⟨⟨_, rfl, rfl⟩, ?_⟩
  intro hb
  simp only [parseResultSection] at hb ⊢
  rw [hb]
  rfl

theorem guardResponse_wf (clients : List (String × ClientCfg)) (oracle : RemoteOracle)
    (mkCall : ClientCfg → PointGuardAiGuard → RemoteCall)
    (getSection : PGResponseData → Option ResultSection) (otext : String)
    (pg : PointGuardAiGuard) :
    RespWF (guardResponse clients oracle mkCall getSection otext pg) := by
  unfold guardResponse
  cases oracle (guardCall clients mkCall pg) with
  | error e => exact parseResultSection_wf _ _ _
  | ok rd => exact parseResultSection_wf _ _ _

theorem parseResultSection_invariant (s : ResultSection) (p t : String) :
    OutcomeInvariant (parseResultSection s p t) := by
  rcases parseResultSection_wf s p t with ⟨⟨v, hv, hvp⟩, hb⟩
  refine ⟨?_, hb⟩
  rw [hv]
  simp [hvp]

theorem allPassedOf_false_iff (rs : List PointGuardValidationResponse) :
    allPassedOf rs = false ↔ ∃ r ∈ rs, r.validation_passed = false := by
  induction rs with
  | nil => simp [allPassedOf]
  | cons r rest ih =>
    simp only [allPassedOf, Bool.and_eq_false_iff, ih, List.mem_cons]
    constructor
    · rintro (h | ⟨r', hr', hp⟩)
      · exact ⟨r, Or.inl rfl, h⟩
      · exact ⟨r', Or.inr hr', hp⟩
    · rintro ⟨r', (rfl | hr'), hp⟩
      · exact Or.inl hp
      · exact Or.inr ⟨r', hr', hp⟩

theorem mem_concatMapValidations (rs : List PointGuardValidationResponse)
    (v : ValidationResult) :
    v ∈ concatMapValidations rs ↔ ∃ r ∈ rs, v ∈ r.validations := by
  induction rs with
  | nil => simp [concatMapValidations]
  | cons r rest ih =>
    simp only [concatMapValidations, List.mem_append, ih, List.mem_cons]
    constructor
    · rintro (h | ⟨r', hr', hv⟩)
      · exact ⟨r, Or.inl rfl, h⟩
      · exact ⟨r', Or.inr hr', hv⟩
    · rintro ⟨r', (rfl | hr'), hv⟩
      · exact Or.inl hv
      · exact Or.inr ⟨r', hr', hv⟩

/-- The merged outcome built from well-formed per-guard responses, with the
details of a member response, satisfies the Validation Outcome invariant. -/
theorem combineResponses_invariant (rs : List PointGuardValidationResponse)
    (hwf : ∀ r ∈ rs, RespWF r) (lastR : PointGuardValidationResponse)
    (hlast : lastR ∈ rs) :
    OutcomeInvariant (combineResponses rs lastR.details) := by
  constructor
  · show allPassedOf rs = false ↔ ∃ v ∈ concatMapValidations rs, v.validation_passed = false
    rw [allPassedOf_false_iff]
    constructor
    · rintro ⟨r, hr, hp⟩
      rcases (hwf r hr).1 with ⟨v, hv, hvp⟩
      refine ⟨v, (mem_concatMapValidations rs v).mpr ⟨r, hr, ?_⟩, hvp.trans hp⟩
      rw [hv]; exact List.mem_singleton.mpr rfl
    · rintro ⟨v, hv, hvp⟩
      rcases (mem_concatMapValidations rs v).mp hv with ⟨r, hr, hvr⟩
      rcases (hwf r hr).1 with ⟨v', hv', hv'p⟩
      rw [hv'] at hvr
      rcases List.mem_singleton.mp hvr with rfl
      exact ⟨r, hr, hv'p.symm.trans hvp⟩
  · intro hb
    show allPassedOf rs = false
    rw [allPassedOf_false_iff]
    exact ⟨lastR, hlast, (hwf lastR hlast).2 hb⟩

/-! ## Further structural lemmas -/

/-- A guard list containing a `PointGuardAi` guard makes the config
collection of `_validate` raise `AttributeError`. -/
theorem collectConfigs_error_of_pg :
    ∀ (gs : List Guard), (∃ pg, Guard.pointGuardAi pg ∈ gs) →
      collectConfigs gs = .error .attributeError := by
  intro gs
  induction gs with
  | nil => rintro ⟨pg, h⟩; exact absurd h (List.not_mem_nil _)
  | cons g rest ih =>
    rintro ⟨pg, h⟩
    rcases List.mem_cons.mp h with hh | ht
    · rw [← hh]
      simp [collectConfigs, Guard.get_validation_configs, ValidationType.memberNamed]
    · cases g with
      | «local» spec =>
        simp [collectConfigs, Guard.get_validation_configs, ih ⟨pg, ht⟩]
      | pointGuardAi pg' =>
        simp [collectConfigs, Guard.get_validation_configs, ValidationType.memberNamed]

/-- Every call issued by the local path is a local batch call. -/
theorem validate_trace_local (o : Guardrail) (lo : LocalOracle) (text : String) :
    ∀ c ∈ (o.validate lo text).2, ∃ lt lv, c = .localBatch lt lv := by
  intro c hc
  unfold Guardrail.validate at hc
  cases hcol : collectConfigs o.guards with
  | error e => simp only [hcol] at hc; exact absurd hc (List.not_mem_nil _)
  | ok validations =>
    simp only [hcol] at hc
    cases hlo : lo text validations with
    | error he =>
      simp only [hlo] at hc
      rcases List.mem_singleton.mp hc with rfl
      exact ⟨text, validations, rfl⟩
    | ok result =>
      simp only [hlo] at hc
      rcases List.mem_singleton.mp hc with rfl
      exact ⟨text, validations, rfl⟩

/-- Every call issued by the remote merge loop is a remote call. -/
theorem runPG_trace_remote (clients : List (String × ClientCfg)) (oracle : RemoteOracle)
    (mkCall : ClientCfg → PointGuardAiGuard → RemoteCall)
    (getSection : PGResponseData → Option ResultSection) (otext : String) :
    ∀ (l : List PointGuardAiGuard)
      (acc : List ValidationResult × Bool × Option PointGuardValidationDetails),
      ∀ c ∈ (runPG clients oracle mkCall getSection otext l acc).2,
        ∃ rc, c = .remote rc := by
  intro l
  induction l with
  | nil => intro acc c hc; exact absurd hc (List.not_mem_nil _)
  | cons pg rest ih =>
    intro acc c hc
    unfold runPG at hc
    cases hl : lookupClient clients pg.base_url with
    | none => rw [hl] at hc; exact absurd hc (List.not_mem_nil _)
    | some cfg =>
      rw [hl] at hc
      cases ho : oracle (mkCall cfg pg) with
      | error he =>
        simp only [ho] at hc
        rcases List.mem_singleton.mp hc with rfl
        exact ⟨mkCall cfg pg, rfl⟩
      | ok rd =>
        simp only [ho] at hc
        rcases List.mem_cons.mp hc with rfl | hmem
        · exact ⟨mkCall cfg pg, rfl⟩
        · exact ih _ c hmem

/-- `finishPG` preserves the call trace. -/
theorem finishPG_trace (x : Except GuardrailError
      (List ValidationResult × Bool × Option PointGuardValidationDetails) ×
    List BackendCall) : (finishPG x).2 = x.2 := by
  rcases x with ⟨r, tr⟩
  rcases r with e | ⟨vals, passed, d⟩
  · rfl
  · cases d <;> rfl

/-! ## Claim theorems -/

/-- C3: `_parse_result_section` consults only the first content item; it
concatenates `dlpViolations` then `aiViolations` into one normalized
violation list with exactly the fields `{name, type, action, categories,
matchCount}` and empty/zero defaults; when `modified` is true the first
item's `modifiedContent` is taken, it is populated only when `modified` is
true and absent otherwise; and overall-passed equals NOT blocked,
independent of the `modified` flag. -/
theorem C3_parse_result_section :
    (∀ (b m : Option Bool) (item : ContentItem) (rest : List ContentItem) (p t : String),
      parseResultSection ⟨b, m, some (item :: rest)⟩ p t =
        parseResultSection ⟨b, m, some [item]⟩ p t) ∧
    (∀ (s : ResultSection) (p t : String) (item : ContentItem) (rest : List ContentItem),
      s.content = some (item :: rest) →
      (parseResultSection s p t).details.violations =
        (item.dlpViolations.getD [] ++ item.aiViolations.getD []).map
          (fun v => { name := v.name, type := v.type, action := v.action,
                      categories := v.categories.getD []
                      matchCount := v.matchCount.getD 0 })) ∧
    (∀ (b : Option Bool) (item : ContentItem) (rest : List ContentItem) (p t : String),
      (parseResultSection ⟨b, some true, some (item :: rest)⟩ p t).details.modified_content =
        item.modifiedContent) ∧
    (∀ (s : ResultSection) (p t : String),
      (parseResultSection s p t).details.modified_content ≠ none → s.modified = some true) ∧
    (∀ (s : ResultSection) (p t : String), s.modified.getD false = false →
      (parseResultSection s p t).details.modified_content = none) ∧
    (∀ (s : ResultSection) (p t : String),
      (parseResultSection s p t).validation_passed = !(s.blocked.getD false)) := by
  refine ⟨?_, ?_, ?_, ?_, ?_, ?_⟩
  · intro b m item rest p t
    rfl
  · intro s p t item rest hcontent
    rcases s with ⟨b, m, content⟩
    cases hcontent
    rfl
  · intro b item rest p t
    rfl
  · intro s p t h
    by_contra hne
    apply h
    have hm : s.modified.getD false = false := by
      cases hmod : s.modified with
      | none => rfl
      | some bb =>
        cases bb with
        | false => rfl
        | true => exact absurd hmod hne
    simp only [parseResultSection, hm]
    cases s.content.getD [] <;> simp
  · intro s p t hm
    simp only [parseResultSection, hm]
    cases s.content.getD [] <;> simp
  · intro s p t
    rfl

/-- Witness for C3: the SSN example of spec §8, a `modified=true` section,
and a `modified=false` section, evaluated concretely. -/
theorem C3_witness :
    ((parseResultSection wSSNSection "policy-a" "My SSN is 123-45-6789").details.violations =
      (wSSNItem.dlpViolations.getD [] ++ wSSNItem.aiViolations.getD []).map
        (fun v => { name := v.name, type := v.type, action := v.action,
                    categories := v.categories.getD []
                    matchCount := v.matchCount.getD 0 }) ∧
     (parseResultSection wPassSection "policy-a" "hi").details.modified_content = none) ∧
    (parseResultSection wSSNSection "policy-a" "My SSN is 123-45-6789").details.violations =
      [{ name := some "SSN", type := some "PII", action := some "redact",
         categories := [], matchCount := 1 }] := by
  refine ⟨⟨?_, ?_⟩, by decide⟩
  · exact C3_parse_result_section.2.1 wSSNSection "policy-a" "My SSN is 123-45-6789"
      wSSNItem [] rfl
  · exact C3_parse_result_section.2.2.2.2.1 wPassSection "policy-a" "hi" rfl

/-- C7: the claim says construction fails whenever the organization is
absent from both arguments and environment; the code instead falls back to
the built-in default organization `"demodevelop"` and succeeds, contradicting
the constructor's own docstring (`Raises ValueError: If policy_name,
api_key, or org is not provided`).  Evaluated at the failing input:
`PointGuardAi(policy_name="p", api_key="k")` with an empty environment. -/
theorem C7_org_default_construction :
    pointGuardAiInit
      { POINTGUARDAI_API_KEY := none, POINTGUARDAI_ORG := none,
        POINTGUARDAI_BASE_URL := none } "p" (some "k") none =
      .ok { policy_name := "p", api_key := "k", org := POINTGUARDAI_DEFAULT_ORG,
            base_url := POINTGUARDAI_DEFAULT_BASE_URL } := by
  rfl

/-- C9: `PointGuardAi.get_validation_configs` references the missing enum
member `ValidationType.PointGuardAi` (the members are `PII`, `TOPIC`,
`POINTGUARD`), so it raises `AttributeError` instead of returning configs;
consequently the local-backend `validate` cannot complete (and issues no
backend call) for any guard list containing a `PointGuardAi` guard. -/
theorem C9_pointguardai_configs_attribute_error :
    (ValidationType.memberNamed "PointGuardAi" = none) ∧
    (∀ pg : PointGuardAiGuard,
      (Guard.pointGuardAi pg).get_validation_configs = .error .attributeError) ∧
    (∀ (o : Guardrail) (lo : LocalOracle) (text : String),
      (∃ pg, Guard.pointGuardAi pg ∈ o.guards) →
      o.validate lo text = (.error (.pyError .attributeError), [])) := by
  refine ⟨rfl, ?_, ?_⟩
  · intro pg
    rfl
  · intro o lo text hpg
    unfold Guardrail.validate
    rw [collectConfigs_error_of_pg o.guards hpg]

/-- Witness for C9: the single-remote-guard orchestrator's local path fails
with `AttributeError` and issues no backend call. -/
theorem C9_witness :
    wOrch.validate wLocalOracle "hi" = (.error (.pyError .attributeError), []) :=
  C9_pointguardai_configs_attribute_error.2.2 wOrch wLocalOracle "hi"
    ⟨wGuard, List.mem_singleton.mpr rfl⟩

/-- C10: a `modified=true` flag with an absent (`None`) or empty
`modified_content` never changes the returned text: `get_validated_content`
returns the original, and any changed return requires a non-empty
backend-provided `modified_content`. -/
theorem C10_modified_without_content_keeps_original :
    (∀ (r : PointGuardValidationResponse) (orig : String),
      r.details.modified = true →
      (r.details.modified_content = none ∨ r.details.modified_content = some "") →
      r.get_validated_content orig = orig) ∧
    (∀ (r : PointGuardValidationResponse) (orig : String),
      r.get_validated_content orig ≠ orig →
      ∃ s, r.details.modified_content = some s ∧ s ≠ "" ∧
        r.get_validated_content orig = s) := by
  constructor
  · intro r orig _ hmc
    unfold PointGuardValidationResponse.get_validated_content
    rcases hmc with hmc | hmc <;> simp [hmc, pyTruthyOptStr]
  · intro r orig hne
    unfold PointGuardValidationResponse.get_validated_content at hne ⊢
    by_cases hcond : (r.details.modified && pyTruthyOptStr r.details.modified_content) = true
    · rw [if_pos hcond] at hne ⊢
      have htr : pyTruthyOptStr r.details.modified_content = true :=
        (Bool.and_eq_true _ _ |>.mp hcond).2
      cases hmc : r.details.modified_content with
      | none => rw [hmc] at htr; exact absurd htr (by simp [pyTruthyOptStr])
      | some s =>
        rw [hmc] at htr
        refine ⟨s, rfl, ?_, by simp [hmc]⟩
        intro hs
        rw [hs] at htr
        exact absurd htr (by simp [pyTruthyOptStr])
    · rw [if_neg hcond] at hne
      exact absurd rfl hne

/-- Witness for C10: a `modified=true` outcome with `modified_content=None`
returns the original text. -/
theorem C10_witness :
    PointGuardValidationResponse.get_validated_content
      { validation_passed := true, validations := []
        details := { blocked := false, modified := true, violations := []
                     modified_content := none } } "hello" = "hello" :=
  C10_modified_without_content_keeps_original.1
    { validation_passed := true, validations := []
      details := { blocked := false, modified := true, violations := []
                   modified_content := none } } "hello" rfl (Or.inl rfl)

/-- C8: the client registry built at orchestrator construction holds one
client per remote endpoint: every registered policy guard resolves to a
client whose endpoint is the guard's; two guards with the same (endpoint,
credential) pair resolve to the same client; guards with distinct endpoints
resolve to distinct clients. -/
theorem C8_shared_clients :
    (∀ (o : Guardrail) (pg : PointGuardAiGuard), pg ∈ o.pointguardai_guards →
      ∃ cfg, lookupClient o.pointguardai_clients pg.base_url = some cfg ∧
        cfg.base_url = pg.base_url) ∧
    (∀ (o : Guardrail) (pg₁ pg₂ : PointGuardAiGuard),
      pg₁ ∈ o.pointguardai_guards → pg₂ ∈ o.pointguardai_guards →
      pg₁.base_url = pg₂.base_url → pg₁.api_key = pg₂.api_key →
      lookupClient o.pointguardai_clients pg₁.base_url =
        lookupClient o.pointguardai_clients pg₂.base_url) ∧
    (∀ (o : Guardrail) (pg₁ pg₂ : PointGuardAiGuard) (c₁ c₂ : ClientCfg),
      pg₁.base_url ≠ pg₂.base_url →
      lookupClient o.pointguardai_clients pg₁.base_url = some c₁ →
      lookupClient o.pointguardai_clients pg₂.base_url = some c₂ →
      c₁ ≠ c₂) := by
  refine ⟨?_, ?_, ?_⟩
  · intro o pg hpg
    exact clients_lookup o pg hpg
  · intro o pg₁ pg₂ _ _ hurl _
    rw [hurl]
  · intro o pg₁ pg₂ c₁ c₂ hne h₁ h₂
    have hinv : ∀ e ∈ o.pointguardai_clients, e.2.base_url = e.1 :=
      buildClients_entry_base_url o.guards [] (by intro e he; simp at he)
    have hb₁ : c₁.base_url = pg₁.base_url := lookupClient_base_url hinv h₁
    have hb₂ : c₂.base_url = pg₂.base_url := lookupClient_base_url hinv h₂
    intro heq
    apply hne
    rw [← hb₁, heq, hb₂]

/-- Witness for C8: in the two-guard orchestrator each guard resolves to a
client on its own endpoint, and the two clients are distinct. -/
theorem C8_witness :
    (∃ cfg, lookupClient wOrch2.pointguardai_clients wGuard.base_url = some cfg ∧
      cfg.base_url = wGuard.base_url) ∧
    ({ base_url := "https://pg.example", api_key := "key-a", org := "org-a" } : ClientCfg) ≠
      { base_url := "https://pg2.example", api_key := "key-b", org := "org-b" } := by
  constructor
  · exact C8_shared_clients.1 wOrch2 wGuard (by decide)
  · exact C8_shared_clients.2.2 wOrch2 wGuard wGuard2 _ _ (by decide) rfl rfl

/-- C1: every outcome parsed from a policy-backend section satisfies the
Validation Outcome invariant (overall-passed false iff some Check Item
failed; detail-blocked implies overall-passed false); the merged outcome of
`validate_input` satisfies it as well; and whenever some guard's response
has `blocked=true` (all remote calls succeeding), `validate_input` raises
`GuardrailValidationFailed` carrying the merged outcome — whose
overall-passed is false — and the subset of failed Check Items, which is
non-empty. -/
theorem C1_blocked_raises_and_invariant :
    (∀ (s : ResultSection) (p t : String), OutcomeInvariant (parseResultSection s p t)) ∧
    (∀ (o : Guardrail) (oracle : RemoteOracle) (text : String) (ck : Option String)
       (front : List PointGuardAiGuard) (lastPg : PointGuardAiGuard),
      o.pointguardai_guards = front ++ [lastPg] →
      OutcomeInvariant
        (combineResponses (o.pointguardai_guards.map (inputGuardResponse o oracle text ck))
          (inputGuardResponse o oracle text ck lastPg).details)) ∧
    (∀ (o : Guardrail) (lo : LocalOracle) (oracle : RemoteOracle) (text : String)
       (ck : Option String) (front : List PointGuardAiGuard) (lastPg : PointGuardAiGuard),
      o.pointguardai_guards = front ++ [lastPg] →
      (∀ pg ∈ o.pointguardai_guards,
        ∃ rd, oracle (guardCall o.pointguardai_clients (mkInputCall text ck) pg) = .ok rd) →
      (∃ pg ∈ o.pointguardai_guards,
        (inputGuardResponse o oracle text ck pg).details.blocked = true) →
      ∃ f : GuardrailValidationFailed, ∃ tr : List BackendCall,
        o.validate_input lo oracle text ck = (.error (.validationFailed f), tr) ∧
        f.validation_results =
          .pg (combineResponses (o.pointguardai_guards.map (inputGuardResponse o oracle text ck))
            (inputGuardResponse o oracle text ck lastPg).details) ∧
        (combineResponses (o.pointguardai_guards.map (inputGuardResponse o oracle text ck))
          (inputGuardResponse o oracle text ck lastPg).details).validation_passed = false ∧
        f.failed_validations =
          (combineResponses (o.pointguardai_guards.map (inputGuardResponse o oracle text ck))
            (inputGuardResponse o oracle text ck lastPg).details).validations.filter
            (fun v => !v.validation_passed) ∧
        f.failed_validations ≠ []) := by
  have hwfmap : ∀ (o : Guardrail) (oracle : RemoteOracle) (text : String) (ck : Option String),
      ∀ r ∈ o.pointguardai_guards.map (inputGuardResponse o oracle text ck), RespWF r := by
    intro o oracle text ck r hr
    rcases List.mem_map.mp hr with ⟨pg, _, rfl⟩
    exact guardResponse_wf _ _ _ _ _ pg
  have hlastmem : ∀ (o : Guardrail) (oracle : RemoteOracle) (text : String) (ck : Option String)
      (front : List PointGuardAiGuard) (lastPg : PointGuardAiGuard),
      o.pointguardai_guards = front ++ [lastPg] →
      inputGuardResponse o oracle text ck lastPg ∈
        o.pointguardai_guards.map (inputGuardResponse o oracle text ck) := by
    intro o oracle text ck front lastPg hdecomp
    exact List.mem_map_of_mem _
      (by rw [hdecomp]; exact List.mem_append_right _ (List.mem_singleton.mpr rfl))
  refine ⟨fun s p t => parseResultSection_invariant s p t, ?_, ?_⟩
  · intro o oracle text ck front lastPg hdecomp
    exact combineResponses_invariant _ (hwfmap o oracle text ck) _
      (hlastmem o oracle text ck front lastPg hdecomp)
  · rintro o lo oracle text ck front lastPg hdecomp hok ⟨pgB, hpgB, hblocked⟩
    have hinv := combineResponses_invariant _ (hwfmap o oracle text ck) _
      (hlastmem o oracle text ck front lastPg hdecomp)
    have hfail : (combineResponses
        (o.pointguardai_guards.map (inputGuardResponse o oracle text ck))
        (inputGuardResponse o oracle text ck lastPg).details).validation_passed = false := by
      show allPassedOf (o.pointguardai_guards.map (inputGuardResponse o oracle text ck)) = false
      rw [allPassedOf_false_iff]
      exact ⟨inputGuardResponse o oracle text ck pgB, List.mem_map_of_mem _ hpgB,
        (guardResponse_wf _ _ _ _ _ pgB).2 hblocked⟩
    have heq := validate_input_remote_eq o lo oracle text ck front lastPg hdecomp hok
    refine ⟨{ validation_results :=
                .pg (combineResponses
                  (o.pointguardai_guards.map (inputGuardResponse o oracle text ck))
                  (inputGuardResponse o oracle text ck lastPg).details)
              failed_validations :=
                (combineResponses
                  (o.pointguardai_guards.map (inputGuardResponse o oracle text ck))
                  (inputGuardResponse o oracle text ck lastPg).details).validations.filter
                  (fun v => !v.validation_passed) },
            o.pointguardai_guards.map (inputGuardCall o text ck), ?_, rfl, hfail, rfl, ?_⟩
    · rw [heq]
      unfold parse_result_pg
      rw [if_neg (by rw [hfail]; exact Bool.false_ne_true)]
      rfl
    · rcases hinv.1.mp hfail with ⟨v, hv, hvp⟩
      exact List.ne_nil_of_mem (List.mem_filter.mpr ⟨hv, by simp [hvp]⟩)

/-- Witness for C1: one remote guard whose backend replies `blocked=true`;
`validate_input` raises with a false overall-passed and a non-empty failed
subset. -/
theorem C1_witness :
    ∃ f : GuardrailValidationFailed, ∃ tr : List BackendCall,
      wOrch.validate_input wLocalOracle wBlockedOracle "hi" none =
        (.error (.validationFailed f), tr) ∧
      f.validation_results =
        .pg (combineResponses
          (wOrch.pointguardai_guards.map (inputGuardResponse wOrch wBlockedOracle "hi" none))
          (inputGuardResponse wOrch wBlockedOracle "hi" none wGuard).details) ∧
      (combineResponses
        (wOrch.pointguardai_guards.map (inputGuardResponse wOrch wBlockedOracle "hi" none))
        (inputGuardResponse wOrch wBlockedOracle "hi" none wGuard).details).validation_passed =
        false ∧
      f.failed_validations =
        (combineResponses
          (wOrch.pointguardai_guards.map (inputGuardResponse wOrch wBlockedOracle "hi" none))
          (inputGuardResponse wOrch wBlockedOracle "hi" none wGuard).details).validations.filter
          (fun v => !v.validation_passed) ∧
      f.failed_validations ≠ [] :=
  C1_blocked_raises_and_invariant.2.2 wOrch wLocalOracle wBlockedOracle "hi" none [] wGuard
    rfl (fun pg _ => ⟨_, rfl⟩)
    ⟨wGuard, List.mem_singleton.mpr rfl, rfl⟩

/-- C2: for a non-empty remote guard list with all remote calls succeeding,
the merged outcome of `validate_input` (and symmetrically `validate_output`)
has overall-passed equal to the AND of the individual guards' overall-passed
flags, Check Items equal to the concatenation of the guards' Check Items in
guard order, and details equal to the last guard's detail payload; the
raise-on-failure rule is then applied to this merged outcome. -/
theorem C2_merge_semantics :
    (∀ (o : Guardrail) (lo : LocalOracle) (oracle : RemoteOracle) (text : String)
       (ck : Option String) (front : List PointGuardAiGuard) (lastPg : PointGuardAiGuard),
      o.pointguardai_guards = front ++ [lastPg] →
      (∀ pg ∈ o.pointguardai_guards,
        ∃ rd, oracle (guardCall o.pointguardai_clients (mkInputCall text ck) pg) = .ok rd) →
      ∃ combined : PointGuardValidationResponse,
        (o.validate_input lo oracle text ck).1 =
          ((parse_result_pg combined).map AnyResponse.pg).mapError
            GuardrailError.validationFailed ∧
        combined.validation_passed =
          allPassedOf (o.pointguardai_guards.map (inputGuardResponse o oracle text ck)) ∧
        combined.validations =
          concatMapValidations
            (o.pointguardai_guards.map (inputGuardResponse o oracle text ck)) ∧
        combined.details = (inputGuardResponse o oracle text ck lastPg).details) ∧
    (∀ (o : Guardrail) (lo : LocalOracle) (oracle : RemoteOracle)
       (input_text output_text : String) (ck : Option String)
       (front : List PointGuardAiGuard) (lastPg : PointGuardAiGuard),
      o.pointguardai_guards = front ++ [lastPg] →
      (∀ pg ∈ o.pointguardai_guards,
        ∃ rd, oracle (guardCall o.pointguardai_clients
          (mkOutputCall input_text output_text ck) pg) = .ok rd) →
      ∃ combined : PointGuardValidationResponse,
        (o.validate_output lo oracle input_text output_text ck).1 =
          ((parse_result_pg combined).map AnyResponse.pg).mapError
            GuardrailError.validationFailed ∧
        combined.validation_passed =
          allPassedOf (o.pointguardai_guards.map
            (outputGuardResponse o oracle input_text output_text ck)) ∧
        combined.validations =
          concatMapValidations (o.pointguardai_guards.map
            (outputGuardResponse o oracle input_text output_text ck)) ∧
        combined.details =
          (outputGuardResponse o oracle input_text output_text ck lastPg).details) := by
  constructor
  · intro o lo oracle text ck front lastPg hdecomp hok
    refine ⟨combineResponses (o.pointguardai_guards.map (inputGuardResponse o oracle text ck))
      (inputGuardResponse o oracle text ck lastPg).details, ?_, rfl, rfl, rfl⟩
    rw [validate_input_remote_eq o lo oracle text ck front lastPg hdecomp hok]
  · intro o lo oracle input_text output_text ck front lastPg hdecomp hok
    refine ⟨combineResponses
      (o.pointguardai_guards.map (outputGuardResponse o oracle input_text output_text ck))
      (outputGuardResponse o oracle input_text output_text ck lastPg).details, ?_, rfl, rfl, rfl⟩
    rw [validate_output_remote_eq o lo oracle input_text output_text ck front lastPg hdecomp hok]

/-- Witness for C2: two remote guards, the first passing and the second
blocking; the merged outcome fails overall, carries both guards' Check
Items concatenated, and retains the last (blocking) guard's details. -/
theorem C2_witness :
    (∃ combined : PointGuardValidationResponse,
      (wOrch2.validate_input wLocalOracle wMixedOracle "hi" none).1 =
        ((parse_result_pg combined).map AnyResponse.pg).mapError
          GuardrailError.validationFailed ∧
      combined.validation_passed =
        allPassedOf (wOrch2.pointguardai_guards.map
          (inputGuardResponse wOrch2 wMixedOracle "hi" none)) ∧
      combined.validations =
        concatMapValidations (wOrch2.pointguardai_guards.map
          (inputGuardResponse wOrch2 wMixedOracle "hi" none)) ∧
      combined.details =
        (inputGuardResponse wOrch2 wMixedOracle "hi" none wGuard2).details) ∧
    (inputGuardResponse wOrch2 wMixedOracle "hi" none wGuard).validation_passed = true ∧
    (inputGuardResponse wOrch2 wMixedOracle "hi" none wGuard2).validation_passed = false ∧
    allPassedOf (wOrch2.pointguardai_guards.map
      (inputGuardResponse wOrch2 wMixedOracle "hi" none)) = false :=
  ⟨C2_merge_semantics.1 wOrch2 wLocalOracle wMixedOracle "hi" none [wGuard] wGuard2
    rfl (fun pg _ => ⟨_, rfl⟩), by decide, by decide, by decide⟩

/-- C5: with zero remote policy guards, `validate_input` (and
`validate_output`) routes to the local path — it behaves exactly as
`validate` on the given text and issues no remote call; with at least one
remote policy guard it takes the remote path and issues no local batch
call. -/
theorem C5_routing :
    (∀ (o : Guardrail) (lo : LocalOracle) (oracle : RemoteOracle) (text : String)
       (ck : Option String),
      o.pointguardai_guards = [] →
      o.validate_input lo oracle text ck =
        ((o.validate lo text).1.map AnyResponse.plain, (o.validate lo text).2) ∧
      ∀ c ∈ (o.validate_input lo oracle text ck).2, ∀ rc, c ≠ .remote rc) ∧
    (∀ (o : Guardrail) (lo : LocalOracle) (oracle : RemoteOracle)
       (input_text output_text : String) (ck : Option String),
      o.pointguardai_guards = [] →
      o.validate_output lo oracle input_text output_text ck =
        ((o.validate lo output_text).1.map AnyResponse.plain,
         (o.validate lo output_text).2) ∧
      ∀ c ∈ (o.validate_output lo oracle input_text output_text ck).2,
        ∀ rc, c ≠ .remote rc) ∧
    (∀ (o : Guardrail) (lo : LocalOracle) (oracle : RemoteOracle) (text : String)
       (ck : Option String),
      o.pointguardai_guards ≠ [] →
      ∀ c ∈ (o.validate_input lo oracle text ck).2, ∀ lt lv, c ≠ .localBatch lt lv) ∧
    (∀ (o : Guardrail) (lo : LocalOracle) (oracle : RemoteOracle)
       (input_text output_text : String) (ck : Option String),
      o.pointguardai_guards ≠ [] →
      ∀ c ∈ (o.validate_output lo oracle input_text output_text ck).2,
        ∀ lt lv, c ≠ .localBatch lt lv) := by
  have hempty_in : ∀ (o : Guardrail) (lo : LocalOracle) (oracle : RemoteOracle)
      (text : String) (ck : Option String), o.pointguardai_guards = [] →
      o.validate_input lo oracle text ck =
        ((o.validate lo text).1.map AnyResponse.plain, (o.validate lo text).2) := by
    intro o lo oracle text ck h
    unfold Guardrail.validate_input
    rw [if_pos (by rw [h]; rfl)]
  have hempty_out : ∀ (o : Guardrail) (lo : LocalOracle) (oracle : RemoteOracle)
      (input_text output_text : String) (ck : Option String),
      o.pointguardai_guards = [] →
      o.validate_output lo oracle input_text output_text ck =
        ((o.validate lo output_text).1.map AnyResponse.plain,
         (o.validate lo output_text).2) := by
    intro o lo oracle input_text output_text ck h
    unfold Guardrail.validate_output
    rw [if_pos (by rw [h]; rfl)]
  refine ⟨?_, ?_, ?_, ?_⟩
  · intro o lo oracle text ck h
    refine ⟨hempty_in o lo oracle text ck h, ?_⟩
    intro c hc rc
    rw [hempty_in o lo oracle text ck h] at hc
    rcases validate_trace_local o lo text c hc with ⟨lt, lv, rfl⟩
    intro hcontra
    exact BackendCall.noConfusion hcontra
  · intro o lo oracle input_text output_text ck h
    refine ⟨hempty_out o lo oracle input_text output_text ck h, ?_⟩
    intro c hc rc
    rw [hempty_out o lo oracle input_text output_text ck h] at hc
    rcases validate_trace_local o lo output_text c hc with ⟨lt', lv', rfl⟩
    intro hcontra
    exact BackendCall.noConfusion hcontra
  · intro o lo oracle text ck h c hc lt lv
    unfold Guardrail.validate_input at hc
    rw [if_neg (by intro hh; exact h (List.isEmpty_iff.mp hh))] at hc
    rw [finishPG_trace] at hc
    rcases runPG_trace_remote o.pointguardai_clients oracle (mkInputCall text ck)
      (·.input) text o.pointguardai_guards ([], true, none) c hc with ⟨rc, rfl⟩
    intro hcontra
    exact BackendCall.noConfusion hcontra
  · intro o lo oracle input_text output_text ck h c hc lt lv
    unfold Guardrail.validate_output at hc
    rw [if_neg (by intro hh; exact h (List.isEmpty_iff.mp hh))] at hc
    rw [finishPG_trace] at hc
    rcases runPG_trace_remote o.pointguardai_clients oracle
      (mkOutputCall input_text output_text ck) (·.output) output_text
      o.pointguardai_guards ([], true, none) c hc with ⟨rc, rfl⟩
    intro hcontra
    exact BackendCall.noConfusion hcontra

/-- Witness for C5: a purely local orchestrator's `validate_input` equals
its `validate`, and the single-remote-guard orchestrator's `validate_input`
trace is free of local batch calls. -/
theorem C5_witness :
    (wLocalOrch.validate_input wLocalOracle wPassOracle "hi" none =
      ((wLocalOrch.validate wLocalOracle "hi").1.map AnyResponse.plain,
       (wLocalOrch.validate wLocalOracle "hi").2)) ∧
    (∀ c ∈ (wOrch.validate_input wLocalOracle wPassOracle "hi" none).2,
      ∀ lt lv, c ≠ .localBatch lt lv) :=
  ⟨(C5_routing.1 wLocalOrch wLocalOracle wPassOracle "hi" none rfl).1,
   C5_routing.2.2.1 wOrch wLocalOracle wPassOracle "hi" none
     (by intro h; exact List.noConfusion h)⟩

/-- C6: a non-2xx backend reply surfaces immediately as a `BackendError`
(never as `GuardrailValidationFailed`): on the local path the call fails
with exactly one batch call issued; on the remote path the first failing
guard aborts the run, the failing call is issued exactly once (it does not
occur among the earlier successful calls), and no further call is made. -/
theorem C6_backend_error :
    (∀ (o : Guardrail) (lo : LocalOracle) (text : String) (he : HttpError)
       (cfgs : List RawValidationConfig),
      collectConfigs o.guards = .ok cfgs → lo text cfgs = .error he →
      o.validate lo text = (.error (.backendError he), [.localBatch text cfgs])) ∧
    (∀ (o : Guardrail) (lo : LocalOracle) (oracle : RemoteOracle) (text : String)
       (ck : Option String) (pre post : List PointGuardAiGuard)
       (fpg : PointGuardAiGuard) (he : HttpError),
      o.pointguardai_guards = pre ++ fpg :: post →
      (∀ pg ∈ pre,
        ∃ rd, oracle (guardCall o.pointguardai_clients (mkInputCall text ck) pg) = .ok rd) →
      oracle (guardCall o.pointguardai_clients (mkInputCall text ck) fpg) = .error he →
      o.validate_input lo oracle text ck =
        (.error (.backendError he),
         pre.map (inputGuardCall o text ck) ++ [inputGuardCall o text ck fpg]) ∧
      (∀ f : GuardrailValidationFailed,
        (o.validate_input lo oracle text ck).1 ≠ .error (.validationFailed f)) ∧
      inputGuardCall o text ck fpg ∉ pre.map (inputGuardCall o text ck)) ∧
    (∀ (o : Guardrail) (lo : LocalOracle) (oracle : RemoteOracle)
       (input_text output_text : String) (ck : Option String)
       (pre post : List PointGuardAiGuard) (fpg : PointGuardAiGuard) (he : HttpError),
      o.pointguardai_guards = pre ++ fpg :: post →
      (∀ pg ∈ pre,
        ∃ rd, oracle (guardCall o.pointguardai_clients
          (mkOutputCall input_text output_text ck) pg) = .ok rd) →
      oracle (guardCall o.pointguardai_clients
        (mkOutputCall input_text output_text ck) fpg) = .error he →
      o.validate_output lo oracle input_text output_text ck =
        (.error (.backendError he),
         pre.map (outputGuardCall o input_text output_text ck) ++
           [outputGuardCall o input_text output_text ck fpg]) ∧
      (∀ f : GuardrailValidationFailed,
        (o.validate_output lo oracle input_text output_text ck).1 ≠
          .error (.validationFailed f)) ∧
      outputGuardCall o input_text output_text ck fpg ∉
        pre.map (outputGuardCall o input_text output_text ck)) := by
  refine ⟨?_, ?_, ?_⟩
  · intro o lo text he cfgs hcol hlo
    unfold Guardrail.validate
    rw [hcol]
    simp only [hlo]
  · intro o lo oracle text ck pre post fpg he hdecomp hpre hf
    have heq := validate_input_remote_error o lo oracle text ck pre post fpg he hdecomp hpre hf
    refine ⟨heq, ?_, ?_⟩
    · intro f
      rw [heq]
      intro hcontra
      exact GuardrailError.noConfusion (Except.error.inj hcontra)
    · intro hmem
      rcases List.mem_map.mp hmem with ⟨pg, hpg, hcall⟩
      have hcalleq : guardCall o.pointguardai_clients (mkInputCall text ck) pg =
          guardCall o.pointguardai_clients (mkInputCall text ck) fpg := by
        have := congrArg (fun c => match c with
          | BackendCall.remote rc => rc
          | BackendCall.localBatch _ _ => guardCall o.pointguardai_clients
              (mkInputCall text ck) fpg) hcall
        simpa [inputGuardCall] using this
      rcases hpre pg hpg with ⟨rd, hrd⟩
      rw [hcalleq, hf] at hrd
      exact Except.noConfusion hrd
  · intro o lo oracle input_text output_text ck pre post fpg he hdecomp hpre hf
    have heq := validate_output_remote_error o lo oracle input_text output_text ck
      pre post fpg he hdecomp hpre hf
    refine ⟨heq, ?_, ?_⟩
    · intro f
      rw [heq]
      intro hcontra
      exact GuardrailError.noConfusion (Except.error.inj hcontra)
    · intro hmem
      rcases List.mem_map.mp hmem with ⟨pg, hpg, hcall⟩
      have hcalleq : guardCall o.pointguardai_clients
          (mkOutputCall input_text output_text ck) pg =
          guardCall o.pointguardai_clients (mkOutputCall input_text output_text ck) fpg := by
        have := congrArg (fun c => match c with
          | BackendCall.remote rc => rc
          | BackendCall.localBatch _ _ => guardCall o.pointguardai_clients
              (mkOutputCall input_text output_text ck) fpg) hcall
        simpa [outputGuardCall] using this
      rcases hpre pg hpg with ⟨rd, hrd⟩
      rw [hcalleq, hf] at hrd
      exact Except.noConfusion hrd

/-- Witness for C6: an HTTP-500 backend makes both the local path and the
remote path of the concrete orchestrators fail with `backendError` after
exactly one call, and never with `GuardrailValidationFailed`. -/
theorem C6_witness :
    (wLocalOrch.validate wLocalErrOracle "hi" =
      (.error (.backendError { status := 500, body := "boom" }),
       [.localBatch "hi" [{ type := .TOPIC, config := [("topic", "finance")] }]])) ∧
    (wOrch.validate_input wLocalOracle wErrOracle "hi" none =
      (.error (.backendError { status := 500, body := "err" }),
       [inputGuardCall wOrch "hi" none wGuard]) ∧
     (∀ f : GuardrailValidationFailed,
       (wOrch.validate_input wLocalOracle wErrOracle "hi" none).1 ≠
         .error (.validationFailed f)) ∧
     inputGuardCall wOrch "hi" none wGuard ∉
       ([] : List PointGuardAiGuard).map (inputGuardCall wOrch "hi" none)) :=
  ⟨C6_backend_error.1 wLocalOrch wLocalErrOracle "hi" { status := 500, body := "boom" }
      [{ type := .TOPIC, config := [("topic", "finance")] }] rfl rfl,
   C6_backend_error.2.1 wOrch wLocalOracle wErrOracle "hi" none [] [] wGuard
      { status := 500, body := "err" } rfl (fun pg hpg => absurd hpg (List.not_mem_nil pg))
      rfl⟩

/-- C4: on a passing outcome, `validate_and_get_input` returns the merged
outcome's content-to-use: the backend-provided modified content when the
outcome recorded a modification (non-empty `modified_content` under
`modified=true`), and the original text unchanged when no modification was
recorded; `validate_and_get_output` behaves symmetrically on the output
text. -/
theorem C4_validate_and_get_content :
    (∀ (o : Guardrail) (lo : LocalOracle) (oracle : RemoteOracle) (text : String)
       (ck : Option String) (front : List PointGuardAiGuard) (lastPg : PointGuardAiGuard),
      o.pointguardai_guards = front ++ [lastPg] →
      (∀ pg ∈ o.pointguardai_guards,
        ∃ rd, oracle (guardCall o.pointguardai_clients (mkInputCall text ck) pg) = .ok rd) →
      (combineResponses (o.pointguardai_guards.map (inputGuardResponse o oracle text ck))
        (inputGuardResponse o oracle text ck lastPg).details).validation_passed = true →
      ((o.validate_and_get_input lo oracle text ck).1 =
        .ok ((combineResponses
          (o.pointguardai_guards.map (inputGuardResponse o oracle text ck))
          (inputGuardResponse o oracle text ck lastPg).details).get_validated_content text) ∧
       (∀ s : String,
        (inputGuardResponse o oracle text ck lastPg).details.modified = true →
        (inputGuardResponse o oracle text ck lastPg).details.modified_content = some s →
        s ≠ "" →
        (o.validate_and_get_input lo oracle text ck).1 = .ok s) ∧
       ((inputGuardResponse o oracle text ck lastPg).details.modified = false →
        (o.validate_and_get_input lo oracle text ck).1 = .ok text))) ∧
    (∀ (o : Guardrail) (lo : LocalOracle) (oracle : RemoteOracle)
       (input_text output_text : String) (ck : Option String)
       (front : List PointGuardAiGuard) (lastPg : PointGuardAiGuard),
      o.pointguardai_guards = front ++ [lastPg] →
      (∀ pg ∈ o.pointguardai_guards,
        ∃ rd, oracle (guardCall o.pointguardai_clients
          (mkOutputCall input_text output_text ck) pg) = .ok rd) →
      (combineResponses
        (o.pointguardai_guards.map (outputGuardResponse o oracle input_text output_text ck))
        (outputGuardResponse o oracle input_text output_text ck lastPg).details).validation_passed
        = true →
      ((o.validate_and_get_output lo oracle input_text output_text ck).1 =
        .ok ((combineResponses
          (o.pointguardai_guards.map (outputGuardResponse o oracle input_text output_text ck))
          (outputGuardResponse o oracle input_text output_text ck
            lastPg).details).get_validated_content output_text) ∧
       (∀ s : String,
        (outputGuardResponse o oracle input_text output_text ck lastPg).details.modified = true →
        (outputGuardResponse o oracle input_text output_text ck lastPg).details.modified_content
          = some s →
        s ≠ "" →
        (o.validate_and_get_output lo oracle input_text output_text ck).1 = .ok s) ∧
       ((outputGuardResponse o oracle input_text output_text ck lastPg).details.modified
          = false →
        (o.validate_and_get_output lo oracle input_text output_text ck).1 =
          .ok output_text))) := by
  constructor
  · intro o lo oracle text ck front lastPg hdecomp hok hpassed
    have heq := validate_input_remote_eq o lo oracle text ck front lastPg hdecomp hok
    have hmain : (o.validate_and_get_input lo oracle text ck).1 =
        .ok ((combineResponses
          (o.pointguardai_guards.map (inputGuardResponse o oracle text ck))
          (inputGuardResponse o oracle text ck lastPg).details).get_validated_content
            text) := by
      unfold Guardrail.validate_and_get_input
      rw [heq]
      unfold parse_result_pg
      rw [if_pos hpassed]
      rfl
    refine ⟨hmain, ?_, ?_⟩
    · intro s hm hmc hs
      have hm' : (combineResponses
          (o.pointguardai_guards.map (inputGuardResponse o oracle text ck))
          (inputGuardResponse o oracle text ck lastPg).details).details.modified = true := hm
      have hmc' : (combineResponses
          (o.pointguardai_guards.map (inputGuardResponse o oracle text ck))
          (inputGuardResponse o oracle text ck lastPg).details).details.modified_content =
          some s := hmc
      rw [hmain]
      unfold PointGuardValidationResponse.get_validated_content
      rw [hm', hmc']
      simp [pyTruthyOptStr, hs]
    · intro hm
      have hm' : (combineResponses
          (o.pointguardai_guards.map (inputGuardResponse o oracle text ck))
          (inputGuardResponse o oracle text ck lastPg).details).details.modified = false := hm
      rw [hmain]
      unfold PointGuardValidationResponse.get_validated_content
      rw [hm']
      simp
  · intro o lo oracle input_text output_text ck front lastPg hdecomp hok hpassed
    have heq := validate_output_remote_eq o lo oracle input_text output_text ck front lastPg
      hdecomp hok
    have hmain : (o.validate_and_get_output lo oracle input_text output_text ck).1 =
        .ok ((combineResponses
          (o.pointguardai_guards.map (outputGuardResponse o oracle input_text output_text ck))
          (outputGuardResponse o oracle input_text output_text ck
            lastPg).details).get_validated_content output_text) := by
      unfold Guardrail.validate_and_get_output
      rw [heq]
      unfold parse_result_pg
      rw [if_pos hpassed]
      rfl
    refine ⟨hmain, ?_, ?_⟩
    · intro s hm hmc hs
      have hm' : (combineResponses
          (o.pointguardai_guards.map (outputGuardResponse o oracle input_text output_text ck))
          (outputGuardResponse o oracle input_text output_text ck
            lastPg).details).details.modified = true := hm
      have hmc' : (combineResponses
          (o.pointguardai_guards.map (outputGuardResponse o oracle input_text output_text ck))
          (outputGuardResponse o oracle input_text output_text ck
            lastPg).details).details.modified_content = some s := hmc
      rw [hmain]
      unfold PointGuardValidationResponse.get_validated_content
      rw [hm', hmc']
      simp [pyTruthyOptStr, hs]
    · intro hm
      have hm' : (combineResponses
          (o.pointguardai_guards.map (outputGuardResponse o oracle input_text output_text ck))
          (outputGuardResponse o oracle input_text output_text ck
            lastPg).details).details.modified = false := hm
      rw [hmain]
      unfold PointGuardValidationResponse.get_validated_content
      rw [hm']
      simp

/-- Witness for C4: a `modified=true, modifiedContent="X", blocked=false`
backend makes `validate_and_get_input` return `"X"`, not the original; a
`modified=false` backend makes `validate_and_get_output` return the output
unchanged. -/
theorem C4_witness :
    (wOrch.validate_and_get_input wLocalOracle wModifiedOracle
      "My SSN is 123-45-6789" none).1 = .ok "X" ∧
    (wOrch.validate_and_get_output wLocalOracle wPassOracle "in" "out" none).1 =
      .ok "out" :=
  ⟨(C4_validate_and_get_content.1 wOrch wLocalOracle wModifiedOracle
      "My SSN is 123-45-6789" none [] wGuard rfl (fun pg _ => ⟨_, rfl⟩)
      (by decide)).2.1 "X" (by decide) (by decide) (by decide),
   (C4_validate_and_get_content.2 wOrch wLocalOracle wPassOracle "in" "out" none [] wGuard
      rfl (fun pg _ => ⟨_, rfl⟩) (by decide)).2.2 (by decide)⟩

end Opik
